import Mathlib

/-!
Verification of the timeline plugin core (parser and dual renderers).

The TypeScript source is shallowly embedded: JavaScript strings become
Lean `String`/`List Char`, `trim` becomes `jsTrim` (dropping the
whitespace characters relevant here: space, tab, CR, LF),
`String.prototype.split` with a literal separator becomes `splitOnL`
(leftmost, non-overlapping), `Array.prototype.join` becomes `joinWith`,
and global single-pattern `replace` becomes `replaceAllL` (scanning
left to right, never rescanning a replacement).  DOM construction in
the live renderer becomes a `Node` tree; string concatenation in the
static renderer becomes a list of chunks, one chunk per `html +=`
statement of the source, whose concatenation is the produced markup.
The external markdown renderer is abstracted as a function parameter.
-/

namespace KhTimelines

/-! ## JavaScript string primitives -/

/-- Whitespace test modelling the whitespace characters handled by
JavaScript `trim` and the regex class `\s` that occur in this domain. -/
def jsWs (c : Char) : Bool := c.isWhitespace

/-- Model of JavaScript `String.prototype.trim` on character lists. -/
def trimL (l : List Char) : List Char :=
  ((l.dropWhile jsWs).reverse.dropWhile jsWs).reverse

/-- Model of JavaScript `String.prototype.trim`. -/
def jsTrim (s : String) : String := String.mk (trimL s.data)

/-- Fuel-driven worker for `replaceAllL`; fuel at least the list length
makes it behave as the JavaScript global replace. -/
def replaceAllGo (pat rep : List Char) : Nat → List Char → List Char
  | _, [] => []
  | 0, l => l
  | fuel+1, x :: xs =>
    if pat.isPrefixOf (x :: xs) && !pat.isEmpty then
      rep ++ replaceAllGo pat rep fuel (List.drop (pat.length - 1) xs)
    else
      x :: replaceAllGo pat rep fuel xs

/-- Model of JavaScript `value.replace(pat-as-global-regex, rep)` for a
literal pattern: every leftmost non-overlapping occurrence of `pat` is
replaced by `rep`, and replacements are not rescanned. -/
def replaceAllL (pat rep : List Char) (l : List Char) : List Char :=
  replaceAllGo pat rep l.length l

/-- Fuel-driven worker for `splitOnL`. -/
def splitOnGo (sep : List Char) : Nat → List Char → List (List Char)
  | _, [] => [[]]
  | 0, l => [l]
  | fuel+1, x :: xs =>
    if sep.isPrefixOf (x :: xs) && !sep.isEmpty then
      [] :: splitOnGo sep fuel (List.drop (sep.length - 1) xs)
    else
      match splitOnGo sep fuel xs with
      | h :: t => (x :: h) :: t
      | [] => [[x]]

/-- Model of JavaScript `String.prototype.split` with a literal
separator: split at each leftmost non-overlapping occurrence. -/
def splitOnL (sep : List Char) (l : List Char) : List (List Char) :=
  splitOnGo sep l.length l

/-- Model of JavaScript `Array.prototype.join(sep)`. -/
def joinWith (sep : List Char) : List (List Char) → List Char
  | [] => []
  | [x] => x
  | x :: y :: t => x ++ sep ++ joinWith sep (y :: t)

/-- Drop a run of leading newline characters. -/
def dropNl : List Char → List Char
  | '\n' :: rest => dropNl rest
  | l => l

/-- Fuel-driven worker for `splitBlanks`. -/
def splitBlanksGo : Nat → List Char → List Char → List (List Char)
  | _, [], acc => [acc.reverse]
  | 0, l, acc => [acc.reverse ++ l]
  | fuel+1, '\n' :: '\n' :: rest, acc => acc.reverse :: splitBlanksGo fuel (dropNl rest) []
  | fuel+1, c :: rest, acc => splitBlanksGo fuel rest (c :: acc)

/-- Model of JavaScript `split(/\n{2,}/)`: split at each maximal run of
two or more consecutive newline characters. -/
def splitBlanks (l : List Char) : List (List Char) :=
  splitBlanksGo l.length l []

/-! ## Data model (`TimelineEntry`, settings) -/

/-- The `TimelineEntry` type of the source: optional raw date label,
optional title, and the remaining body text. -/
structure TimelineEntry where
  date : Option String := none
  title : Option String := none
  body : String
deriving DecidableEq

/-- The recognized plugin settings (`settings.ts`). -/
structure TimelinePluginSettings where
  showMarkers : Bool
  defaultDateLabel : String
deriving DecidableEq

/-- `DEFAULT_SETTINGS` from `settings.ts`. -/
def DEFAULT_SETTINGS : TimelinePluginSettings :=
  { showMarkers := true, defaultDateLabel := ("Date") }

/-- JavaScript truthiness of a string: `""` is falsy. -/
def strTruthy (s : String) : Bool := s.length != 0

/-- JavaScript truthiness of a `string | undefined` value. -/
def truthy : Option String → Bool
  | none => false
  | some s => strTruthy s

/-- The pattern `x.length > 0 ? x : undefined` of the source: empty
strings become an absent field. -/
def optOfStr (s : String) : Option String :=
  if 0 < s.length then some s else none

/-! ## Header parser (`parseHeader`, `isLikelyBodyStart`) -/

/-- Result record of `parseHeader`. -/
structure ParsedHeader where
  date : Option String
  title : Option String
deriving DecidableEq

/-- `parseHeader` from the source: split on the first pipe, else on the
literal separator " - ", else the whole trimmed line is the title.
Trimmed-empty segments become absent fields. -/
def parseHeader (headerLine : String) : ParsedHeader :=
  let pipeParts := splitOnL (['|']) headerLine.data
  if 2 ≤ pipeParts.length then
    let date := jsTrim (String.mk (pipeParts.headD []))
    let title := jsTrim (String.mk (joinWith (['|']) (pipeParts.drop 1)))
    { date := optOfStr date, title := optOfStr title }
  else
    let dashParts := splitOnL ((" - ").data) headerLine.data
    if 2 ≤ dashParts.length then
      let date := jsTrim (String.mk (dashParts.headD []))
      let title := jsTrim (String.mk (joinWith ((" - ").data) (dashParts.drop 1)))
      { date := optOfStr date, title := optOfStr title }
    else
      let header := jsTrim headerLine
      { date := none, title := optOfStr header }

/-- Alternative "```" of the body-start regex: a fenced-code marker. -/
def fenceTest (l : List Char) : Bool := (("```").data).isPrefixOf l

/-- Alternative ">\s+" of the body-start regex: a block-quote marker,
a `>` followed by at least one whitespace character. -/
def quoteTest : List Char → Bool
  | a :: b :: _ => a == '>' && jsWs b
  | _ => false

/-- Alternative "[-*+]\s+" of the body-start regex: an unordered-list
marker followed by at least one whitespace character. -/
def ulistTest : List Char → Bool
  | a :: b :: _ => (a == '-' || a == '*' || a == '+') && jsWs b
  | _ => false

/-- Head-is-a-period test used by the ordered-list alternative. -/
def headIsDot : List Char → Bool
  | '.' :: _ => true
  | _ => false

/-- Alternative "\d+\." of the body-start regex: one or more digits
immediately followed by a period (no following whitespace required). -/
def olistTest : List Char → Bool
  | c :: rest => c.isDigit && headIsDot (rest.dropWhile Char.isDigit)
  | [] => false

/-- Anchored test of the regex `/^(```|>\s+|[-*+]\s+|\d+\.)/`. -/
def bodyStartRegexTest (l : List Char) : Bool :=
  fenceTest l || quoteTest l || ulistTest l || olistTest l

/-- `isLikelyBodyStart` from the source: the trimmed line is empty, or
it begins with one of the four body markers. -/
def isLikelyBodyStart (line : String) : Bool :=
  let trimmed := jsTrim line
  if trimmed.length = 0 then true
  else bodyStartRegexTest trimmed.data

/-! ## Block segmenter (`parseTimelineSource`) -/

/-- First line of a block, trimmed (`lines[0]?.trim() ?? ''`). -/
def headerLineOf (block : String) : String :=
  jsTrim (String.mk ((splitOnL (['\n']) block.data).headD []))

/-- Remaining lines of a block, rejoined and trimmed
(`lines.slice(1).join('\n').trim()`). -/
def bodyLinesOf (block : String) : String :=
  jsTrim (String.mk (joinWith (['\n']) ((splitOnL (['\n']) block.data).drop 1)))

/-- The header-extraction arm of the per-block loop: run `parseHeader`
on the first line, and fall back to the whole block when the result has
neither date nor title and the remaining body is empty.  The source
binds `h := parseHeader(headerLine)`, `bodyLines` and
`body := bodyLines.length > 0 ? bodyLines : ''`; the `body` binding is
named `armBody` and the condition `armCond` here. -/
def armBody (block : String) : String :=
  if 0 < (bodyLinesOf block).length then bodyLinesOf block else ("")

/-- The fallback condition `!date && !title && body.length === 0` of the
source, on the parsed header and extracted body of a block. -/
def armCond (block : String) : Bool :=
  !(truthy (parseHeader (headerLineOf block)).date) &&
    !(truthy (parseHeader (headerLineOf block)).title) &&
    ((armBody block).length == 0)

def processHeaderArm (block : String) : TimelineEntry :=
  if armCond block then { body := block }
  else
    { date := (parseHeader (headerLineOf block)).date,
      title := (parseHeader (headerLineOf block)).title,
      body := armBody block }

/-- One iteration of the per-block loop of `parseTimelineSource`: each
block contributes exactly one entry. -/
def processBlock (block : String) : TimelineEntry :=
  if isLikelyBodyStart (headerLineOf block) then { body := block }
  else processHeaderArm block

/-- The blank-line-separated blocks of the trimmed source, each trimmed,
empty blocks dropped (`trimmedSource.split(/\n{2,}/).map(trim).filter(Boolean)`). -/
def blocksOf (source : String) : List String :=
  ((splitBlanks (jsTrim source).data).map (fun b => jsTrim (String.mk b))).filter
    (fun b => strTruthy b)

/-- `parseTimelineSource` from the source: empty trimmed input gives no
entries; otherwise each block becomes one entry in order. -/
def parseTimelineSource (source : String) : List TimelineEntry :=
  if (jsTrim source).length = 0 then []
  else (blocksOf source).map processBlock

/-! ## Escaping (`escapeHtml`) -/

/-- The apostrophe character (code point 39). -/
def sq : Char := Char.ofNat 39

/-- `escapeHtml` from the source: five global replaces, applied in this
order: `&`, `<`, `>`, `"`, then the apostrophe. -/
def escapeHtml (value : String) : String :=
  String.mk
    (replaceAllL [sq] (("&#39;").data)
      (replaceAllL ['"'] (("&quot;").data)
        (replaceAllL ['>'] (("&gt;").data)
          (replaceAllL ['<'] (("&lt;").data)
            (replaceAllL ['&'] (("&amp;").data) value.data)))))

/-! ## Live renderer (`renderTimelineEntries`)

DOM elements become `Node` values: `createDiv`/`createSpan` with a
class becomes a `Node` with that `cls`, `setText` fills `text`, and the
`aria-hidden` attribute is recorded in `attrs`.  The nodes appended to
the `timeline` container are returned as a list.  The external
`MarkdownRenderer.renderMarkdown` call is abstracted as a parameter
`md : String → List Node` giving the children it appends to its target
element. -/

/-- A rendered interactive node: class label, text content, attributes,
children, mirroring the element tree the live renderer builds. -/
structure Node where
  cls : String
  text : String
  attrs : List (String × String)
  children : List Node

/-- The start-marker decoration node. -/
def startMarkerNode : Node :=
  { cls := ("timeline-start-marker"), text := (""),
    attrs := [(("aria-hidden"), ("true"))], children := [] }

/-- The per-item marker decoration node. -/
def markerNode : Node :=
  { cls := ("timeline-marker"), text := (""),
    attrs := [(("aria-hidden"), ("true"))], children := [] }

/-- The `timeline-date` span with its displayed text. -/
def dateNodeL (d : String) : Node :=
  { cls := ("timeline-date"), text := d, attrs := [], children := [] }

/-- The `timeline-title` span with its displayed text. -/
def titleNodeL (t : String) : Node :=
  { cls := ("timeline-title"), text := t, attrs := [], children := [] }

/-- The resolved date text of both renderers:
`entry.date ?? (fallbackDate.length > 0 ? fallbackDate : undefined)`
where `fallbackDate = settings.defaultDateLabel.trim()`. -/
def dateTextOf (settings : TimelinePluginSettings) (e : TimelineEntry) : Option String :=
  let fallbackDate := jsTrim settings.defaultDateLabel
  match e.date with
  | some d => some d
  | none => if 0 < fallbackDate.length then some fallbackDate else none

/-- The `timeline-meta` block of the live renderer: present when the
resolved date or the title is truthy; inside, a date span when the
resolved date is truthy and a title span when the title is truthy. -/
def liveMetaNodes (settings : TimelinePluginSettings) (e : TimelineEntry) : List Node :=
  if truthy (dateTextOf settings e) || truthy e.title then
    [{ cls := ("timeline-meta"), text := (""), attrs := [],
       children :=
         (match dateTextOf settings e with
          | some d => if strTruthy d then [dateNodeL d] else []
          | none => []) ++
         (match e.title with
          | some t2 => if strTruthy t2 then [titleNodeL t2] else []
          | none => []) }]
  else []

/-- The `timeline-body` element of the live renderer: always created;
markdown is rendered into it only when the trimmed body is non-empty. -/
def liveBodyNode (md : String → List Node) (e : TimelineEntry) : Node :=
  { cls := ("timeline-body"), text := (""), attrs := [],
    children := if 0 < (jsTrim e.body).length then md (jsTrim e.body) else [] }

/-- The `timeline-content` element of one live item. -/
def renderEntryContent (md : String → List Node) (settings : TimelinePluginSettings)
    (e : TimelineEntry) : Node :=
  { cls := ("timeline-content"), text := (""), attrs := [],
    children := liveMetaNodes settings e ++ [liveBodyNode md e] }

/-- One `timeline-item` of the live renderer. -/
def renderEntryLive (md : String → List Node) (settings : TimelinePluginSettings)
    (e : TimelineEntry) : Node :=
  { cls := ("timeline-item"), text := (""), attrs := [],
    children :=
      (if settings.showMarkers then [markerNode] else []) ++
      [renderEntryContent md settings e] }

/-- `renderTimelineEntries` from the source: the children appended to
the `timeline` container. -/
def renderTimelineEntries (md : String → List Node) (entries : List TimelineEntry)
    (settings : TimelinePluginSettings) : List Node :=
  if entries.length = 0 then
    [{ cls := ("timeline-empty"), text := ("No timeline entries found."),
       attrs := [], children := [] }]
  else
    (if settings.showMarkers then [startMarkerNode] else []) ++
      entries.map (renderEntryLive md settings)

/-! ## Static renderer (`renderTimelineHtml`)

Each list element is one `html += ...` statement of the source, in
execution order; the produced markup string is their concatenation.
The external markdown renderer is abstracted as `mdH : String → String`
giving the `innerHTML` captured from the host element. -/

/-- Chunk literals of the static renderer, one per `html +=` literal. -/
def timelineOpenChunk : String := ("<div class=\"timeline\">")

/-- The empty-indicator chunk (it also closes the timeline container). -/
def emptyChunk : String :=
  ("<div class=\"timeline-empty\">No timeline entries found.</div></div>")

/-- The start-marker decoration chunk. -/
def startMarkerChunk : String :=
  ("<div class=\"timeline-start-marker\" aria-hidden=\"true\"></div>")

/-- The per-item marker decoration chunk. -/
def markerChunk : String :=
  ("<div class=\"timeline-marker\" aria-hidden=\"true\"></div>")

/-- The item-opening chunk. -/
def itemOpenChunk : String := ("<div class=\"timeline-item\">")

/-- The content-opening chunk. -/
def contentOpenChunk : String := ("<div class=\"timeline-content\">")

/-- The meta-opening chunk. -/
def metaOpenChunk : String := ("<div class=\"timeline-meta\">")

/-- A single closing tag chunk. -/
def divCloseChunk : String := ("</div>")

/-- The chunk closing content and item. -/
def itemCloseChunk : String := ("</div></div>")

/-- The date span chunk with its escaped display text. -/
def dateSpanChunk (d : String) : String :=
  ("<span class=\"timeline-date\">") ++ (escapeHtml d ++ ("</span>"))

/-- The title span chunk with its escaped display text. -/
def titleSpanChunk (t2 : String) : String :=
  ("<span class=\"timeline-title\">") ++ (escapeHtml t2 ++ ("</span>"))

/-- The body chunk embedding the trimmed rendered markup. -/
def bodyChunk (h : String) : String :=
  ("<div class=\"timeline-body\">") ++ (h ++ ("</div>"))

/-- The date-span piece of the static meta block
(`if (dateText) html += <span ...>`). -/
def dateChunkPart (settings : TimelinePluginSettings) (e : TimelineEntry) : List String :=
  match dateTextOf settings e with
  | some d => if strTruthy d then [dateSpanChunk d] else []
  | none => []

/-- The title-span piece of the static meta block
(`if (entry.title) html += <span ...>`). -/
def titleChunkPart (e : TimelineEntry) : List String :=
  match e.title with
  | some t2 => if strTruthy t2 then [titleSpanChunk t2] else []
  | none => []

/-- The `timeline-meta` chunks of the static renderer. -/
def metaChunks (settings : TimelinePluginSettings) (e : TimelineEntry) : List String :=
  if truthy (dateTextOf settings e) || truthy e.title then
    [metaOpenChunk] ++ dateChunkPart settings e ++ titleChunkPart e ++ [divCloseChunk]
  else []

/-- The `timeline-body` chunks of the static renderer: present only
when the trimmed body is non-empty and the trimmed rendered markup is
non-empty. -/
def bodyChunksStatic (mdH : String → String) (e : TimelineEntry) : List String :=
  if 0 < (jsTrim e.body).length then
    if 0 < (jsTrim (mdH (jsTrim e.body))).length then
      [bodyChunk (jsTrim (mdH (jsTrim e.body)))]
    else []
  else []

/-- The chunks one entry contributes to the static markup. -/
def entryChunks (mdH : String → String) (settings : TimelinePluginSettings)
    (e : TimelineEntry) : List String :=
  [itemOpenChunk] ++
    (if settings.showMarkers then [markerChunk] else []) ++
    [contentOpenChunk] ++
    metaChunks settings e ++
    bodyChunksStatic mdH e ++
    [itemCloseChunk]

/-- The chunk sequence of the static renderer for an entry list. -/
def renderEntriesChunks (mdH : String → String) (entries : List TimelineEntry)
    (settings : TimelinePluginSettings) : List String :=
  [timelineOpenChunk] ++
    (if entries.length = 0 then [emptyChunk]
     else
      (if settings.showMarkers then [startMarkerChunk] else []) ++
        (entries.map (entryChunks mdH settings)).flatten ++
        [divCloseChunk])

/-- `renderTimelineHtml` from the source as a chunk sequence: parse the
source, then render the entries. -/
def renderTimelineHtmlChunks (mdH : String → String) (source : String)
    (settings : TimelinePluginSettings) : List String :=
  renderEntriesChunks mdH (parseTimelineSource source) settings

/-- `renderTimelineHtml` from the source: the produced markup string. -/
def renderTimelineHtml (mdH : String → String) (source : String)
    (settings : TimelinePluginSettings) : String :=
  String.join (renderTimelineHtmlChunks mdH source settings)

/-! ## Class-label counting on live output

`nodeClsCount` counts the renderer-emitted elements carrying a class
label; children of a `timeline-body` element are the delegated prose
rendering (the external markdown renderer's output), not segments the
renderer emits, so they are not descended into. -/

mutual

/-- Count renderer-emitted nodes with class `c` in one node. -/
def nodeClsCount (c : String) : Node → Nat
  | ⟨cl, _, _, cs⟩ =>
    (if cl = c then 1 else 0) +
      (if cl = ("timeline-body") then 0 else nodesClsCount c cs)

/-- Count renderer-emitted nodes with class `c` in a node list. -/
def nodesClsCount (c : String) : List Node → Nat
  | [] => 0
  | n :: t => nodeClsCount c n + nodesClsCount c t

end

/-! ## Specification-side definitions

The following definitions formalise the wording of the specification
(first occurrence of a separator, resolution order of the displayed
date, the shared semantic decomposition of one entry); the claims
compare them with the embedded source functions above. -/

/-- First occurrence of `sep` in a list, as the pair (text before the
occurrence, text after the occurrence); `none` when `sep` does not
occur. -/
def firstSplitAux (sep : List Char) : List Char → Option (List Char × List Char)
  | [] => none
  | x :: xs =>
    if sep.isPrefixOf (x :: xs) then some ([], List.drop sep.length (x :: xs))
    else (firstSplitAux sep xs).map (fun p => (x :: p.1, p.2))

/-- Resolution order of the displayed date as the specification words
it: the entry's own date if present, else the trimmed
`defaultDateLabel` if that is non-empty, else no date. -/
def specDisplayedDate (settings : TimelinePluginSettings) (e : TimelineEntry) :
    Option String :=
  match e.date with
  | some d => some d
  | none =>
    if 0 < (jsTrim settings.defaultDateLabel).length then
      some (jsTrim settings.defaultDateLabel)
    else none

/-! ## Basic lemmas about the string primitives -/

theorem str_length_eq_zero_iff (s : String) : s.length = 0 ↔ s = ("") := by
  constructor
  · intro h
    cases s with
    | mk l =>
      have : l = [] := by
        have hl : l.length = 0 := h
        exact List.length_eq_zero.mp hl
      simp [this]
  · intro h; subst h; rfl

theorem strTruthy_iff (s : String) : strTruthy s = true ↔ s ≠ ("") := by
  unfold strTruthy
  rw [ne_eq, ← str_length_eq_zero_iff]
  simp [bne]

theorem replaceAllGo_fuel (pat rep : List Char) :
    ∀ (f1 f2 : Nat) (l : List Char), l.length ≤ f1 → l.length ≤ f2 →
      replaceAllGo pat rep f1 l = replaceAllGo pat rep f2 l := by
  intro f1
  induction f1 with
  | zero =>
    intro f2 l h1 _
    have hl : l = [] := by
      cases l with
      | nil => rfl
      | cons a t => simp at h1
    subst hl
    cases f2 <;> rfl
  | succ g ih =>
    intro f2 l h1 h2
    cases l with
    | nil => cases f2 <;> rfl
    | cons x xs =>
      cases f2 with
      | zero => simp at h2
      | succ g2 =>
        simp only [replaceAllGo]
        by_cases hc : (pat.isPrefixOf (x :: xs) && !pat.isEmpty) = true
        · rw [if_pos hc, if_pos hc]
          have h1' : (List.drop (pat.length - 1) xs).length ≤ g := by
            rw [List.length_drop]
            simp only [List.length_cons] at h1
            omega
          have h2' : (List.drop (pat.length - 1) xs).length ≤ g2 := by
            rw [List.length_drop]
            simp only [List.length_cons] at h2
            omega
          rw [ih g2 _ h1' h2']
        · rw [if_neg hc, if_neg hc]
          have h1' : xs.length ≤ g := by simp only [List.length_cons] at h1; omega
          have h2' : xs.length ≤ g2 := by simp only [List.length_cons] at h2; omega
          rw [ih g2 _ h1' h2']

theorem replaceAllL_nil (pat rep : List Char) : replaceAllL pat rep [] = [] := rfl

theorem replaceAllL_cons (pat rep : List Char) (x : Char) (xs : List Char) :
    replaceAllL pat rep (x :: xs) =
      if pat.isPrefixOf (x :: xs) && !pat.isEmpty then
        rep ++ replaceAllL pat rep (List.drop (pat.length - 1) xs)
      else
        x :: replaceAllL pat rep xs := by
  unfold replaceAllL
  simp only [List.length_cons, replaceAllGo]
  by_cases hc : (pat.isPrefixOf (x :: xs) && !pat.isEmpty) = true
  · rw [if_pos hc, if_pos hc]
    congr 1
    apply replaceAllGo_fuel
    · rw [List.length_drop]; omega
    · rfl
  · rw [if_neg hc, if_neg hc]

theorem splitOnGo_fuel (sep : List Char) :
    ∀ (f1 f2 : Nat) (l : List Char), l.length ≤ f1 → l.length ≤ f2 →
      splitOnGo sep f1 l = splitOnGo sep f2 l := by
  intro f1
  induction f1 with
  | zero =>
    intro f2 l h1 _
    have hl : l = [] := by
      cases l with
      | nil => rfl
      | cons a t => simp at h1
    subst hl
    cases f2 <;> rfl
  | succ g ih =>
    intro f2 l h1 h2
    cases l with
    | nil => cases f2 <;> rfl
    | cons x xs =>
      cases f2 with
      | zero => simp at h2
      | succ g2 =>
        simp only [splitOnGo]
        by_cases hc : (sep.isPrefixOf (x :: xs) && !sep.isEmpty) = true
        · rw [if_pos hc, if_pos hc]
          have h1' : (List.drop (sep.length - 1) xs).length ≤ g := by
            rw [List.length_drop]
            simp only [List.length_cons] at h1
            omega
          have h2' : (List.drop (sep.length - 1) xs).length ≤ g2 := by
            rw [List.length_drop]
            simp only [List.length_cons] at h2
            omega
          rw [ih g2 _ h1' h2']
        · rw [if_neg hc, if_neg hc]
          have h1' : xs.length ≤ g := by simp only [List.length_cons] at h1; omega
          have h2' : xs.length ≤ g2 := by simp only [List.length_cons] at h2; omega
          rw [ih g2 _ h1' h2']

theorem splitOnL_nil (sep : List Char) : splitOnL sep [] = [[]] := rfl

theorem splitOnL_cons (sep : List Char) (x : Char) (xs : List Char) :
    splitOnL sep (x :: xs) =
      if sep.isPrefixOf (x :: xs) && !sep.isEmpty then
        [] :: splitOnL sep (List.drop (sep.length - 1) xs)
      else
        match splitOnL sep xs with
        | h :: t => (x :: h) :: t
        | [] => [[x]] := by
  unfold splitOnL
  simp only [List.length_cons, splitOnGo]
  by_cases hc : (sep.isPrefixOf (x :: xs) && !sep.isEmpty) = true
  · rw [if_pos hc, if_pos hc]
    congr 1
    apply splitOnGo_fuel
    · rw [List.length_drop]; omega
    · rfl
  · rw [if_neg hc, if_neg hc]

theorem splitOnL_ne_nil (sep : List Char) (l : List Char) : splitOnL sep l ≠ [] := by
  cases l with
  | nil => simp [splitOnL_nil]
  | cons x xs =>
    rw [splitOnL_cons]
    by_cases hc : (sep.isPrefixOf (x :: xs) && !sep.isEmpty) = true
    · rw [if_pos hc]; simp
    · rw [if_neg hc]
      cases splitOnL sep xs with
      | nil => simp
      | cons h t => simp

theorem joinWith_cons_cons (sep : List Char) (x h : List Char) (t : List (List Char)) :
    joinWith sep ((x ++ h) :: t) = x ++ joinWith sep (h :: t) := by
  cases t with
  | nil => simp [joinWith]
  | cons y t2 => simp [joinWith]

theorem joinWith_nil_cons (sep : List Char) (t : List (List Char)) (ht : t ≠ []) :
    joinWith sep ([] :: t) = sep ++ joinWith sep t := by
  cases t with
  | nil => exact absurd rfl ht
  | cons y t2 => simp [joinWith]

theorem isPrefixOf_decomp {sep l : List Char} (h : sep.isPrefixOf l = true) :
    sep ++ List.drop sep.length l = l := by
  obtain ⟨t, ht⟩ := List.isPrefixOf_iff_prefix.mp h
  subst ht
  rw [List.drop_left]

theorem joinWith_splitOnL_bounded (sep : List Char) (hsep : sep ≠ []) :
    ∀ (n : Nat) (l : List Char), l.length ≤ n →
      joinWith sep (splitOnL sep l) = l := by
  intro n
  induction n with
  | zero =>
    intro l h1
    have hl : l = [] := by
      cases l with
      | nil => rfl
      | cons a t => simp at h1
    subst hl
    simp [splitOnL_nil, joinWith]
  | succ g ih =>
    intro l h1
    cases l with
    | nil => simp [splitOnL_nil, joinWith]
    | cons x xs =>
      rw [splitOnL_cons]
      have hlen : 0 < sep.length := List.length_pos.mpr hsep
      by_cases hp : sep.isPrefixOf (x :: xs) = true
      · have hc : (sep.isPrefixOf (x :: xs) && !sep.isEmpty) = true := by
          simp [hp, List.isEmpty_iff, hsep]
        rw [if_pos hc]
        rw [joinWith_nil_cons sep _ (splitOnL_ne_nil sep _)]
        have hd : (List.drop (sep.length - 1) xs).length ≤ g := by
          rw [List.length_drop]
          simp only [List.length_cons] at h1
          omega
        rw [ih _ hd]
        have hdrop : List.drop (sep.length - 1) xs = List.drop sep.length (x :: xs) := by
          conv_rhs => rw [show sep.length = (sep.length - 1) + 1 from by omega]
          rw [List.drop_succ_cons]
        rw [hdrop]
        exact isPrefixOf_decomp hp
      · have hc : (sep.isPrefixOf (x :: xs) && !sep.isEmpty) = false := by
          simp [hp]
        rw [if_neg (by simp [hc])]
        have hxs : xs.length ≤ g := by simp only [List.length_cons] at h1; omega
        have ihx := ih xs hxs
        cases hsx : splitOnL sep xs with
        | nil => exact absurd hsx (splitOnL_ne_nil sep xs)
        | cons h t =>
          rw [hsx] at ihx
          have : joinWith sep ((x :: h) :: t) = x :: joinWith sep (h :: t) := by
            have := joinWith_cons_cons sep [x] h t
            simpa using this
          rw [this, ihx]

theorem joinWith_splitOnL (sep : List Char) (hsep : sep ≠ []) (l : List Char) :
    joinWith sep (splitOnL sep l) = l :=
  joinWith_splitOnL_bounded sep hsep l.length l le_rfl

theorem splitOnL_of_firstSplit_some (sep : List Char) (hsep : sep ≠ []) :
    ∀ (l pre post : List Char), firstSplitAux sep l = some (pre, post) →
      splitOnL sep l = pre :: splitOnL sep post := by
  intro l
  induction l with
  | nil => intro pre post h; simp [firstSplitAux] at h
  | cons x xs ih =>
    intro pre post h
    by_cases hp : sep.isPrefixOf (x :: xs) = true
    · rw [firstSplitAux, if_pos hp] at h
      simp only [Option.some.injEq, Prod.mk.injEq] at h
      obtain ⟨h3, h4⟩ := h
      subst h3; subst h4
      rw [splitOnL_cons]
      have hc : (sep.isPrefixOf (x :: xs) && !sep.isEmpty) = true := by
        simp [hp, List.isEmpty_iff, hsep]
      rw [if_pos hc]
      have hlen : 0 < sep.length := List.length_pos.mpr hsep
      have hdrop : List.drop (sep.length - 1) xs = List.drop sep.length (x :: xs) := by
        conv_rhs => rw [show sep.length = (sep.length - 1) + 1 from by omega]
        rw [List.drop_succ_cons]
      rw [hdrop]
    · rw [firstSplitAux, if_neg hp] at h
      cases hfs : firstSplitAux sep xs with
      | none => rw [hfs] at h; simp at h
      | some p =>
        rw [hfs] at h
        obtain ⟨a, b⟩ := p
        simp only [Option.map_some', Option.some.injEq, Prod.mk.injEq] at h
        obtain ⟨h3, h4⟩ := h
        subst h3; subst h4
        rw [splitOnL_cons]
        rw [if_neg (by simp [hp])]
        rw [ih a b hfs]

theorem splitOnL_of_firstSplit_none (sep : List Char) :
    ∀ (l : List Char), firstSplitAux sep l = none → splitOnL sep l = [l] := by
  intro l
  induction l with
  | nil => intro _; exact splitOnL_nil sep
  | cons x xs ih =>
    intro h
    by_cases hp : sep.isPrefixOf (x :: xs) = true
    · rw [firstSplitAux, if_pos hp] at h; simp at h
    · rw [firstSplitAux, if_neg hp] at h
      cases hfs : firstSplitAux sep xs with
      | none =>
        rw [splitOnL_cons, if_neg (by simp [hp])]
        rw [ih hfs]
      | some p => rw [hfs] at h; simp at h

theorem splitOnL_two_le_iff (sep : List Char) (hsep : sep ≠ []) (l : List Char) :
    2 ≤ (splitOnL sep l).length ↔ (firstSplitAux sep l).isSome = true := by
  cases hfs : firstSplitAux sep l with
  | none =>
    rw [splitOnL_of_firstSplit_none sep l hfs]
    simp
  | some p =>
    obtain ⟨pre, post⟩ := p
    rw [splitOnL_of_firstSplit_some sep hsep l pre post hfs]
    simp only [List.length_cons, Option.isSome_some, iff_true]
    have := splitOnL_ne_nil sep post
    have hl : 0 < (splitOnL sep post).length := List.length_pos.mpr this
    omega

theorem firstSplit_single_isSome_iff (c : Char) (l : List Char) :
    (firstSplitAux [c] l).isSome = true ↔ c ∈ l := by
  induction l with
  | nil => simp [firstSplitAux]
  | cons x xs ih =>
    rw [firstSplitAux]
    by_cases hx : x = c
    · subst hx
      have hp : ([x].isPrefixOf (x :: xs)) = true := by
        simp [List.isPrefixOf]
      rw [if_pos hp]
      simp
    · have hp : ¬ (([c].isPrefixOf (x :: xs)) = true) := by
        simp [List.isPrefixOf]
        exact fun h => absurd h.symm hx
      rw [if_neg hp]
      cases hfs : firstSplitAux [c] xs with
      | none =>
        rw [hfs] at ih
        simp only [hfs, Option.map_none', Option.isSome_none, List.mem_cons]
        simp only [Option.isSome_none] at ih
        constructor
        · intro h; exact absurd h (by simp)
        · rintro (h | h)
          · exact absurd h.symm hx
          · exact absurd h (by simp [← ih])
      | some p =>
        rw [hfs] at ih
        simp only [hfs, Option.map_some', Option.isSome_some, List.mem_cons]
        simp only [Option.isSome_some] at ih
        constructor
        · intro _; exact Or.inr (ih.mp trivial)
        · intro _; trivial

/-- Claim C2: `parseHeader` applies the pipe rule first, then the
" - " rule, then the bare-title fallback, in that priority order.  The
date is the trimmed segment before the first separator occurrence, the
title is the trimmed rejoined remainder, and trimmed-empty segments
become absent fields. -/
theorem claim_C2 (line : String) :
    ((firstSplitAux (['|']) line.data).isSome = true ↔ '|' ∈ line.data) ∧
    (∀ pre post, firstSplitAux (['|']) line.data = some (pre, post) →
      parseHeader line =
        { date := optOfStr (jsTrim (String.mk pre)),
          title := optOfStr (jsTrim (String.mk post)) }) ∧
    (firstSplitAux (['|']) line.data = none →
      ∀ pre post, firstSplitAux ((" - ").data) line.data = some (pre, post) →
        parseHeader line =
          { date := optOfStr (jsTrim (String.mk pre)),
            title := optOfStr (jsTrim (String.mk post)) }) ∧
    (firstSplitAux (['|']) line.data = none →
      firstSplitAux ((" - ").data) line.data = none →
      parseHeader line = { date := none, title := optOfStr (jsTrim line) }) := by
  refine ⟨firstSplit_single_isSome_iff '|' line.data, ?_, ?_, ?_⟩
  · intro pre post h
    have hsep : (['|'] : List Char) ≠ [] := by simp
    have hsplit := splitOnL_of_firstSplit_some (['|']) hsep line.data pre post h
    have hlen : 2 ≤ (splitOnL (['|']) line.data).length := by
      rw [hsplit, List.length_cons]
      exact Nat.succ_le_succ (List.length_pos.mpr (splitOnL_ne_nil (['|']) post))
    simp only [parseHeader]
    rw [if_pos hlen, hsplit]
    simp only [List.headD_cons, List.drop_succ_cons, List.drop_zero]
    rw [joinWith_splitOnL (['|']) hsep post]
  · intro hnone pre post h
    have hsep : ((" - ").data : List Char) ≠ [] := by decide
    have hsplit := splitOnL_of_firstSplit_some ((" - ").data) hsep line.data pre post h
    have hlen : 2 ≤ (splitOnL ((" - ").data) line.data).length := by
      rw [hsplit, List.length_cons]
      exact Nat.succ_le_succ (List.length_pos.mpr (splitOnL_ne_nil ((" - ").data) post))
    have hpipe : ¬ 2 ≤ (splitOnL (['|']) line.data).length := by
      rw [splitOnL_of_firstSplit_none (['|']) line.data hnone]
      simp
    simp only [parseHeader]
    rw [if_neg hpipe, if_pos hlen, hsplit]
    simp only [List.headD_cons, List.drop_succ_cons, List.drop_zero]
    rw [joinWith_splitOnL ((" - ").data) hsep post]
  · intro hnone1 hnone2
    have hpipe : ¬ 2 ≤ (splitOnL (['|']) line.data).length := by
      rw [splitOnL_of_firstSplit_none (['|']) line.data hnone1]
      simp
    have hdash : ¬ 2 ≤ (splitOnL ((" - ").data) line.data).length := by
      rw [splitOnL_of_firstSplit_none ((" - ").data) line.data hnone2]
      simp
    simp only [parseHeader]
    rw [if_neg hpipe, if_neg hdash]

/-- Witness for claim C2 at the header examples of the specification. -/
theorem claim_C2_witness :
    parseHeader ("2024-01-01 | Launch") =
      { date := some ("2024-01-01"), title := some ("Launch") } ∧
    parseHeader ("2024-01-01 - Launch") =
      { date := some ("2024-01-01"), title := some ("Launch") } ∧
    parseHeader ("Just a title") =
      { date := none, title := some ("Just a title") } := by
  refine ⟨?_, ?_, ?_⟩
  · have h := (claim_C2 ("2024-01-01 | Launch")).2.1 (("2024-01-01 ").data)
      ((" Launch").data) (by decide)
    rw [h]; decide
  · have h := (claim_C2 ("2024-01-01 - Launch")).2.2.1 (by decide) (("2024-01-01").data)
      (("Launch").data) (by decide)
    rw [h]; decide
  · have h := (claim_C2 ("Just a title")).2.2.2 (by decide) (by decide)
    rw [h]; decide

/-- Claim C3: the body-start classifier returns true exactly when the
trimmed line is empty or begins with a fenced-code, block-quote,
unordered-list, or ordered-list marker; and whenever it returns true
for a block's (trimmed) first line, the segmenter emits the whole block
unchanged as a body-only entry. -/
theorem claim_C3 :
    (∀ line : String,
      isLikelyBodyStart line = true ↔
        (jsTrim line = ("") ∨ fenceTest (jsTrim line).data = true ∨
          quoteTest (jsTrim line).data = true ∨ ulistTest (jsTrim line).data = true ∨
          olistTest (jsTrim line).data = true)) ∧
    (∀ block : String, isLikelyBodyStart (headerLineOf block) = true →
      processBlock block = { date := none, title := none, body := block }) := by
  constructor
  · intro line
    unfold isLikelyBodyStart bodyStartRegexTest
    by_cases h0 : (jsTrim line).length = 0
    · rw [if_pos h0]
      have : jsTrim line = ("") := (str_length_eq_zero_iff (jsTrim line)).mp h0
      simp [this]
    · rw [if_neg h0]
      have : ¬ jsTrim line = ("") := fun h => h0 ((str_length_eq_zero_iff _).mpr h)
      simp [this, Bool.or_eq_true, or_assoc]
  · intro block h
    unfold processBlock
    rw [if_pos h]

/-- Witness for claim C3 at the body-start block of the specification. -/
theorem claim_C3_witness :
    processBlock ("- item one\n- item two") =
      { date := none, title := none, body := ("- item one\n- item two") } :=
  claim_C3.2 ("- item one\n- item two") (by decide)

theorem processHeaderArm_pos (b : String) (h : armCond b = true) :
    processHeaderArm b = { date := none, title := none, body := b } := by
  unfold processHeaderArm
  rw [if_pos h]

theorem processHeaderArm_neg (b : String) (h : armCond b = false) :
    processHeaderArm b =
      { date := (parseHeader (headerLineOf b)).date,
        title := (parseHeader (headerLineOf b)).title,
        body := armBody b } := by
  unfold processHeaderArm
  rw [if_neg (by simp [h])]

/-- Claim C4: when a block's first line is not classified as body
content, `parseHeader` yields neither date nor title, and the remaining
lines are trimmed-empty, the produced entry's body is the original
block verbatim. -/
theorem claim_C4 (block : String)
    (hstart : isLikelyBodyStart (headerLineOf block) = false)
    (hdate : (parseHeader (headerLineOf block)).date = none)
    (htitle : (parseHeader (headerLineOf block)).title = none)
    (hbody : bodyLinesOf block = ("")) :
    (processBlock block).body = block := by
  unfold processBlock
  rw [if_neg (by simp [hstart])]
  rw [processHeaderArm_pos block ?_]
  have hab : armBody block = ("") := by
    unfold armBody
    rw [hbody]
    decide
  unfold armCond
  rw [hdate, htitle, hab]
  decide

/-- Witness for claim C4 at the block "|", whose header parses to
neither date nor title and whose remaining body is empty. -/
theorem claim_C4_witness : (processBlock ("|")).body = ("|") :=
  claim_C4 ("|") (by decide) (by decide) (by decide) (by decide)

@[simp] theorem string_empty_length : (("") : String).length = 0 := rfl

theorem optOfStr_some_ne (s d : String) (h : optOfStr s = some d) : d ≠ ("") := by
  unfold optOfStr at h
  by_cases h0 : 0 < s.length
  · rw [if_pos h0] at h
    injection h with h2
    subst h2
    intro he
    rw [he] at h0
    exact absurd h0 (by decide)
  · rw [if_neg h0] at h
    cases h

theorem parseHeader_date_ne (line d : String)
    (h : (parseHeader line).date = some d) : d ≠ ("") := by
  simp only [parseHeader] at h
  split at h
  · simp only at h
    exact optOfStr_some_ne _ _ h
  · split at h
    · simp only at h
      exact optOfStr_some_ne _ _ h
    · simp only at h
      cases h

theorem parseHeader_title_ne (line t2 : String)
    (h : (parseHeader line).title = some t2) : t2 ≠ ("") := by
  simp only [parseHeader] at h
  split at h
  · simp only at h
    exact optOfStr_some_ne _ _ h
  · split at h
    · simp only at h
      exact optOfStr_some_ne _ _ h
    · simp only at h
      exact optOfStr_some_ne _ _ h

theorem truthy_ne_none {o : Option String} (h : truthy o = true) : o ≠ none := by
  cases o with
  | none => simp [truthy] at h
  | some s => simp

/-- Claim C5: every entry the segmenter produces has at least one of
date, title, body non-empty, and a present date or title field is never
the empty string. -/
theorem claim_C5 (source : String) (e : TimelineEntry)
    (he : e ∈ parseTimelineSource source) :
    (∀ d, e.date = some d → d ≠ ("")) ∧
    (∀ t2, e.title = some t2 → t2 ≠ ("")) ∧
    (e.date ≠ none ∨ e.title ≠ none ∨ e.body ≠ ("")) := by
  unfold parseTimelineSource at he
  split at he
  · cases he
  · obtain ⟨b, hb, hpe⟩ := List.mem_map.mp he
    have hbne : b ≠ ("") := by
      unfold blocksOf at hb
      exact (strTruthy_iff b).mp (List.mem_filter.mp hb).2
    subst hpe
    unfold processBlock
    split
    · exact ⟨(by intro d hd; simp at hd), (by intro t2 ht; simp at ht),
        Or.inr (Or.inr hbne)⟩
    · by_cases hc : armCond b = true
      · rw [processHeaderArm_pos b hc]
        exact ⟨(by intro d hd; simp at hd), (by intro t2 ht; simp at ht),
          Or.inr (Or.inr hbne)⟩
      · have hc2 : armCond b = false := Bool.eq_false_iff.mpr hc
        rw [processHeaderArm_neg b hc2]
        refine ⟨?_, ?_, ?_⟩
        · intro d hd
          simp only at hd
          exact parseHeader_date_ne _ _ hd
        · intro t2 ht
          simp only at ht
          exact parseHeader_title_ne _ _ ht
        · by_cases hdt : truthy (parseHeader (headerLineOf b)).date = true
          · exact Or.inl (truthy_ne_none hdt)
          · by_cases htt : truthy (parseHeader (headerLineOf b)).title = true
            · exact Or.inr (Or.inl (truthy_ne_none htt))
            · refine Or.inr (Or.inr ?_)
              intro hbody
              simp only at hbody
              apply hc
              have htd2 : truthy (parseHeader (headerLineOf b)).date = false :=
                Bool.eq_false_iff.mpr hdt
              have htt2 : truthy (parseHeader (headerLineOf b)).title = false :=
                Bool.eq_false_iff.mpr htt
              unfold armCond
              rw [htd2, htt2, hbody]
              decide

/-- Witness for claim C5 on a concrete parsed source. -/
theorem claim_C5_witness :
    (∀ d, ({ date := some ("2024"), title := some ("L"), body := ("") }
        : TimelineEntry).date = some d → d ≠ ("")) ∧
    (∀ t2, ({ date := some ("2024"), title := some ("L"), body := ("") }
        : TimelineEntry).title = some t2 → t2 ≠ ("")) ∧
    (({ date := some ("2024"), title := some ("L"), body := ("") }
        : TimelineEntry).date ≠ none ∨
      ({ date := some ("2024"), title := some ("L"), body := ("") }
        : TimelineEntry).title ≠ none ∨
      ({ date := some ("2024"), title := some ("L"), body := ("") }
        : TimelineEntry).body ≠ ("")) :=
  claim_C5 ("2024|L") { date := some ("2024"), title := some ("L"), body := ("") }
    (by decide)

theorem bodyStartRegexTest_marker_nonws (m c2 : Char) (rest : List Char)
    (hfence : (('`') == m) = false) (hdigit : m.isDigit = false)
    (hws : jsWs c2 = false) :
    bodyStartRegexTest (m :: c2 :: rest) = false := by
  unfold bodyStartRegexTest
  have hf : fenceTest (m :: c2 :: rest) = false := by
    unfold fenceTest
    rw [show (("```")).data = ('`') :: ('`') :: ('`') :: [] from rfl]
    simp only [List.isPrefixOf, hfence, Bool.false_and]
  have hq : quoteTest (m :: c2 :: rest) = ((m == '>') && jsWs c2) := rfl
  have hu : ulistTest (m :: c2 :: rest) =
      ((m == '-' || m == '*' || m == '+') && jsWs c2) := rfl
  have ho : olistTest (m :: c2 :: rest) =
      (m.isDigit && headIsDot ((c2 :: rest).dropWhile Char.isDigit)) := rfl
  rw [hf, hq, hu, ho, hws, hdigit]
  simp

theorem bodyStart_marker_false (line : String) (m c2 : Char) (rest : List Char)
    (heq : (jsTrim line).data = m :: c2 :: rest)
    (hm : m = '>' ∨ m = '-' ∨ m = '*' ∨ m = '+')
    (hws : jsWs c2 = false) :
    isLikelyBodyStart line = false := by
  unfold isLikelyBodyStart
  have hlen : (jsTrim line).length = rest.length + 2 := by
    show (jsTrim line).data.length = _
    rw [heq]
    simp
  rw [if_neg (by omega)]
  rw [heq]
  rcases hm with rfl | rfl | rfl | rfl
  · exact bodyStartRegexTest_marker_nonws _ _ _ (by decide) (by decide) hws
  · exact bodyStartRegexTest_marker_nonws _ _ _ (by decide) (by decide) hws
  · exact bodyStartRegexTest_marker_nonws _ _ _ (by decide) (by decide) hws
  · exact bodyStartRegexTest_marker_nonws _ _ _ (by decide) (by decide) hws

theorem bodyStart_olist_true (line : String) (ds rest : List Char)
    (heq : (jsTrim line).data = ds ++ ('.') :: rest)
    (hne : ds ≠ [])
    (hdig : ∀ c ∈ ds, c.isDigit = true) :
    isLikelyBodyStart line = true := by
  unfold isLikelyBodyStart
  cases ds with
  | nil => exact absurd rfl hne
  | cons d0 ds2 =>
    have hlen : (jsTrim line).length = ds2.length + rest.length + 2 := by
      show (jsTrim line).data.length = _
      rw [heq]
      simp
      omega
    rw [if_neg (by omega)]
    rw [heq]
    have holist : olistTest ((d0 :: ds2) ++ ('.') :: rest) = true := by
      have hrw : (d0 :: ds2) ++ ('.') :: rest = d0 :: (ds2 ++ ('.') :: rest) := rfl
      rw [hrw]
      have hd0 : d0.isDigit = true := hdig d0 (by simp)
      have hdrop2 : List.dropWhile Char.isDigit ds2 = [] :=
        List.dropWhile_eq_nil_iff.mpr (fun x hx => hdig x (by simp [hx]))
      have hdropApp :
          List.dropWhile Char.isDigit (ds2 ++ ('.') :: rest) = ('.') :: rest := by
        rw [List.dropWhile_append, hdrop2]
        simp [List.dropWhile_cons]
      show (d0.isDigit && headIsDot (List.dropWhile Char.isDigit
        (ds2 ++ ('.') :: rest))) = true
      rw [hd0, hdropApp]
      rfl
    unfold bodyStartRegexTest
    rw [holist]
    simp

/-- Claim C10: the classifier requires a following whitespace character
after block-quote and unordered-list markers but not after ordered-list
markers: a trimmed line starting with one of the characters `>`, `-`,
`*`, `+` immediately followed by a non-whitespace character is not body
content and the block is parsed as a header, while a trimmed line
starting with one or more digits immediately followed by a period is
body content and the whole block becomes the body. -/
theorem claim_C10 :
    (∀ (line : String) (m c2 : Char) (rest : List Char),
      (jsTrim line).data = m :: c2 :: rest →
      (m = '>' ∨ m = '-' ∨ m = '*' ∨ m = '+') →
      jsWs c2 = false →
      isLikelyBodyStart line = false) ∧
    (∀ (line : String) (ds rest : List Char),
      (jsTrim line).data = ds ++ ('.') :: rest →
      ds ≠ [] →
      (∀ c ∈ ds, c.isDigit = true) →
      isLikelyBodyStart line = true) ∧
    (∀ (block : String) (m c2 : Char) (rest : List Char),
      (jsTrim (headerLineOf block)).data = m :: c2 :: rest →
      (m = '>' ∨ m = '-' ∨ m = '*' ∨ m = '+') →
      jsWs c2 = false →
      processBlock block = processHeaderArm block) ∧
    (∀ (block : String) (ds rest : List Char),
      (jsTrim (headerLineOf block)).data = ds ++ ('.') :: rest →
      ds ≠ [] →
      (∀ c ∈ ds, c.isDigit = true) →
      processBlock block = { date := none, title := none, body := block }) := by
  refine ⟨bodyStart_marker_false, bodyStart_olist_true, ?_, ?_⟩
  · intro block m c2 rest heq hm hws
    unfold processBlock
    rw [if_neg (by simp [bodyStart_marker_false (headerLineOf block) m c2 rest heq hm hws])]
  · intro block ds rest heq hne hdig
    unfold processBlock
    rw [if_pos (bodyStart_olist_true (headerLineOf block) ds rest heq hne hdig)]

/-- Witness for claim C10 at the lines ">note" and "1.5 | Release". -/
theorem claim_C10_witness :
    isLikelyBodyStart ((">note")) = false ∧
    isLikelyBodyStart (("1.5 | Release")) = true ∧
    processBlock (("1.5 | Release")) =
      { date := none, title := none, body := ("1.5 | Release") } := by
  refine ⟨?_, ?_, ?_⟩
  · exact claim_C10.1 ((">note")) '>' 'n' (("ote")).data (by decide) (by decide)
      (by decide)
  · exact claim_C10.2.1 (("1.5 | Release")) ['1'] (("5 | Release")).data (by decide)
      (by decide) (by decide)
  · exact claim_C10.2.2.2 (("1.5 | Release")) ['1'] (("5 | Release")).data (by decide)
      (by decide) (by decide)

/-! ## Escaping: structure of `escapeHtml` and the decoding round trip -/

/-- Single-character global replace as a structural map. -/
def mapRepl (c : Char) (rep : List Char) : List Char → List Char
  | [] => []
  | x :: t => (if x = c then rep else [x]) ++ mapRepl c rep t

/-- The per-character substitution `escapeHtml` performs. -/
def escChar (c : Char) : List Char :=
  if c = '&' then (("&amp;")).data
  else if c = '<' then (("&lt;")).data
  else if c = '>' then (("&gt;")).data
  else if c = '"' then (("&quot;")).data
  else if c = sq then (("&#39;")).data
  else [c]

/-- Concatenation of a per-character chunk function over a list. -/
def chunksMap (f : Char → List Char) : List Char → List Char
  | [] => []
  | c :: t => f c ++ chunksMap f t

theorem mapRepl_nil (c : Char) (rep : List Char) : mapRepl c rep [] = [] := rfl

theorem mapRepl_cons (c : Char) (rep : List Char) (x : Char) (t : List Char) :
    mapRepl c rep (x :: t) = (if x = c then rep else [x]) ++ mapRepl c rep t := rfl

theorem replaceAllL_skip (pat rep : List Char) (x : Char) (xs : List Char)
    (h : pat.isPrefixOf (x :: xs) = false) :
    replaceAllL pat rep (x :: xs) = x :: replaceAllL pat rep xs := by
  rw [replaceAllL_cons, if_neg (by simp [h])]

theorem replaceAllL_consume (pat rep rest : List Char) (hne : pat ≠ []) :
    replaceAllL pat rep (pat ++ rest) = rep ++ replaceAllL pat rep rest := by
  cases pat with
  | nil => exact absurd rfl hne
  | cons p ps =>
    rw [show (p :: ps) ++ rest = p :: (ps ++ rest) from rfl, replaceAllL_cons]
    have hp : ((p :: ps).isPrefixOf (p :: (ps ++ rest))) = true :=
      List.isPrefixOf_iff_prefix.mpr ⟨rest, rfl⟩
    rw [if_pos (by simp [hp, List.isEmpty_iff])]
    congr 1
    simp only [List.length_cons, Nat.add_sub_cancel]
    exact congrArg _ (List.drop_left ps rest)

theorem not_prefixOf_append (pat chunk rest : List Char) (k : Nat)
    (hk1 : k ≤ pat.length) (hk2 : k ≤ chunk.length)
    (hne : pat.take k ≠ chunk.take k) :
    pat.isPrefixOf (chunk ++ rest) = false := by
  rw [Bool.eq_false_iff]
  intro hp
  apply hne
  have hpre := List.isPrefixOf_iff_prefix.mp hp
  have heq := List.prefix_iff_eq_take.mp hpre
  have h2 := congrArg (List.take k) heq
  rw [List.take_take, Nat.min_eq_left hk1] at h2
  rw [h2, List.take_append_of_le_length hk2]

theorem not_prefixOf_cons_ne_amp (p1 : List Char) (c : Char) (rest : List Char)
    (hc : ¬ c = '&') : ((('&') :: p1).isPrefixOf (c :: rest)) = false := by
  rw [Bool.eq_false_iff]
  intro hp
  have hpre := List.isPrefixOf_iff_prefix.mp hp
  obtain ⟨t, ht⟩ := hpre
  have : '&' = c := by
    have := congrArg (fun l => List.headD l '&') ht
    simpa using this
  exact hc this.symm

theorem replaceAllL_single (c : Char) (rep : List Char) (l : List Char) :
    replaceAllL [c] rep l = mapRepl c rep l := by
  induction l with
  | nil => rfl
  | cons x xs ih =>
    rw [replaceAllL_cons]
    by_cases hx : x = c
    · subst hx
      have hp : (([x].isPrefixOf (x :: xs)) && !([x] : List Char).isEmpty) = true := by
        simp [List.isPrefixOf]
      rw [if_pos hp]
      simp only [List.length_cons, List.length_nil, Nat.zero_add, Nat.sub_self,
        List.drop_zero]
      rw [ih, mapRepl_cons, if_pos (rfl : x = x)]
    · have hp : (([c].isPrefixOf (x :: xs)) && !([c] : List Char).isEmpty) = false := by
        have : ([c].isPrefixOf (x :: xs)) = false := by
          rw [Bool.eq_false_iff]
          intro hpp
          obtain ⟨t, ht⟩ := List.isPrefixOf_iff_prefix.mp hpp
          have : c = x := by
            have := congrArg (fun l => List.headD l c) ht
            simpa using this
          exact hx this.symm
        rw [this]
        rfl
      rw [if_neg (by rw [hp]; exact Bool.false_ne_true), ih, mapRepl_cons, if_neg hx]
      rfl

theorem mapRepl_append (c : Char) (rep a b : List Char) :
    mapRepl c rep (a ++ b) = mapRepl c rep a ++ mapRepl c rep b := by
  induction a with
  | nil => rfl
  | cons x xs ih =>
    rw [List.cons_append, mapRepl_cons, mapRepl_cons, ih, List.append_assoc]

theorem escape_chain (l : List Char) :
    mapRepl sq ((("&#39;")).data)
      (mapRepl '"' ((("&quot;")).data)
        (mapRepl '>' ((("&gt;")).data)
          (mapRepl '<' ((("&lt;")).data)
            (mapRepl '&' ((("&amp;")).data) l)))) = chunksMap escChar l := by
  induction l with
  | nil => rfl
  | cons c t ih =>
    show mapRepl sq _ (mapRepl '"' _ (mapRepl '>' _ (mapRepl '<' _
      (mapRepl '&' _ (c :: t))))) = escChar c ++ chunksMap escChar t
    rw [mapRepl_cons]
    rw [mapRepl_append, mapRepl_append, mapRepl_append, mapRepl_append]
    rw [ih]
    congr 1
    by_cases h1 : c = '&'
    · subst h1; decide
    · by_cases h2 : c = '<'
      · subst h2; decide
      · by_cases h3 : c = '>'
        · subst h3; decide
        · by_cases h4 : c = '"'
          · subst h4; decide
          · by_cases h5 : c = sq
            · subst h5; decide
            · rw [if_neg h1]
              rw [mapRepl_cons, if_neg h2, mapRepl_nil, List.append_nil]
              rw [mapRepl_cons, if_neg h3, mapRepl_nil, List.append_nil]
              rw [mapRepl_cons, if_neg h4, mapRepl_nil, List.append_nil]
              rw [mapRepl_cons, if_neg h5, mapRepl_nil, List.append_nil]
              unfold escChar
              rw [if_neg h1, if_neg h2, if_neg h3, if_neg h4, if_neg h5]

/-- `escapeHtml` is the character-wise substitution `escChar`. -/
theorem escapeHtml_data (s : String) :
    (escapeHtml s).data = chunksMap escChar s.data := by
  unfold escapeHtml
  show (replaceAllL [sq] ((("&#39;")).data)
      (replaceAllL ['"'] ((("&quot;")).data)
        (replaceAllL ['>'] ((("&gt;")).data)
          (replaceAllL ['<'] ((("&lt;")).data)
            (replaceAllL ['&'] ((("&amp;")).data) s.data))))) =
    chunksMap escChar s.data
  rw [replaceAllL_single, replaceAllL_single, replaceAllL_single, replaceAllL_single,
    replaceAllL_single]
  exact escape_chain s.data

/-! ## Decoding the escaped output (specification-side)

The specification requires that decoding the escaped output by
reversing the five substitutions reproduces the original text.  The
decoder below applies the five inverse replacements in reverse
substitution order. -/

/-- The decoder described by the specification: reverse the five
substitutions of `escapeHtml`, in reverse order. -/
def unescapeHtml (value : String) : String :=
  String.mk
    (replaceAllL ((("&amp;"))).data ['&']
      (replaceAllL ((("&lt;"))).data ['<']
        (replaceAllL ((("&gt;"))).data ['>']
          (replaceAllL ((("&quot;"))).data ['"']
            (replaceAllL ((("&#39;"))).data [sq] value.data)))))

/-- Chunk state after undoing the apostrophe substitution. -/
def escCharA (c : Char) : List Char := if c = sq then [sq] else escChar c

/-- Chunk state after also undoing the double-quote substitution. -/
def escCharB (c : Char) : List Char := if c = '"' then ['"'] else escCharA c

/-- Chunk state after also undoing the greater-than substitution. -/
def escCharC (c : Char) : List Char := if c = '>' then ['>'] else escCharB c

/-- Chunk state after also undoing the less-than substitution. -/
def escCharD (c : Char) : List Char := if c = '<' then ['<'] else escCharC c

theorem escChar_other (c : Char) (h1 : ¬ c = '&') (h2 : ¬ c = '<') (h3 : ¬ c = '>')
    (h4 : ¬ c = '"') (h5 : ¬ c = sq) : escChar c = [c] := by
  unfold escChar
  rw [if_neg h1, if_neg h2, if_neg h3, if_neg h4, if_neg h5]

theorem escCharA_other (c : Char) (h1 : ¬ c = '&') (h2 : ¬ c = '<') (h3 : ¬ c = '>')
    (h4 : ¬ c = '"') (h5 : ¬ c = sq) : escCharA c = [c] := by
  unfold escCharA
  rw [if_neg h5]
  exact escChar_other c h1 h2 h3 h4 h5

theorem escCharB_other (c : Char) (h1 : ¬ c = '&') (h2 : ¬ c = '<') (h3 : ¬ c = '>')
    (h4 : ¬ c = '"') (h5 : ¬ c = sq) : escCharB c = [c] := by
  unfold escCharB
  rw [if_neg h4]
  exact escCharA_other c h1 h2 h3 h4 h5

theorem escCharC_other (c : Char) (h1 : ¬ c = '&') (h2 : ¬ c = '<') (h3 : ¬ c = '>')
    (h4 : ¬ c = '"') (h5 : ¬ c = sq) : escCharC c = [c] := by
  unfold escCharC
  rw [if_neg h3]
  exact escCharB_other c h1 h2 h3 h4 h5

theorem escCharD_other (c : Char) (h1 : ¬ c = '&') (h2 : ¬ c = '<') (h3 : ¬ c = '>')
    (h4 : ¬ c = '"') (h5 : ¬ c = sq) : escCharD c = [c] := by
  unfold escCharD
  rw [if_neg h2]
  exact escCharC_other c h1 h2 h3 h4 h5

theorem decode_pass (pat rep : List Char) (f g : Char → List Char)
    (hchunk : ∀ (c : Char) (rest : List Char),
      replaceAllL pat rep (f c ++ rest) = g c ++ replaceAllL pat rep rest)
    (l : List Char) :
    replaceAllL pat rep (chunksMap f l) = chunksMap g l := by
  induction l with
  | nil => rfl
  | cons c t ih =>
    show replaceAllL pat rep (f c ++ chunksMap f t) = g c ++ chunksMap g t
    rw [hchunk c (chunksMap f t), ih]

theorem skip1_amp (rest : List Char) :
    replaceAllL ((("&#39;"))).data [sq] ((("&amp;")).data ++ rest) =
      (("&amp;")).data ++ replaceAllL ((("&#39;"))).data [sq] rest := by
  show replaceAllL ((("&#39;"))).data [sq] ('&' :: 'a' :: 'm' :: 'p' :: ';' :: rest) =
    '&' :: 'a' :: 'm' :: 'p' :: ';' :: replaceAllL ((("&#39;"))).data [sq] rest
  rw [replaceAllL_skip ((("&#39;"))).data [sq] '&' ('a' :: 'm' :: 'p' :: ';' :: rest)
    (not_prefixOf_append ((("&#39;"))).data (("&amp;")).data rest 2 (by decide)
      (by decide) (by decide))]
  rw [replaceAllL_skip ((("&#39;"))).data [sq] 'a' ('m' :: 'p' :: ';' :: rest)
    (not_prefixOf_append ((("&#39;"))).data ['a'] ('m' :: 'p' :: ';' :: rest) 1 (by decide)
      (by decide) (by decide))]
  rw [replaceAllL_skip ((("&#39;"))).data [sq] 'm' ('p' :: ';' :: rest)
    (not_prefixOf_append ((("&#39;"))).data ['m'] ('p' :: ';' :: rest) 1 (by decide)
      (by decide) (by decide))]
  rw [replaceAllL_skip ((("&#39;"))).data [sq] 'p' (';' :: rest)
    (not_prefixOf_append ((("&#39;"))).data ['p'] (';' :: rest) 1 (by decide)
      (by decide) (by decide))]
  rw [replaceAllL_skip ((("&#39;"))).data [sq] ';' (rest)
    (not_prefixOf_append ((("&#39;"))).data [';'] (rest) 1 (by decide)
      (by decide) (by decide))]

theorem skip1_lt (rest : List Char) :
    replaceAllL ((("&#39;"))).data [sq] ((("&lt;")).data ++ rest) =
      (("&lt;")).data ++ replaceAllL ((("&#39;"))).data [sq] rest := by
  show replaceAllL ((("&#39;"))).data [sq] ('&' :: 'l' :: 't' :: ';' :: rest) =
    '&' :: 'l' :: 't' :: ';' :: replaceAllL ((("&#39;"))).data [sq] rest
  rw [replaceAllL_skip ((("&#39;"))).data [sq] '&' ('l' :: 't' :: ';' :: rest)
    (not_prefixOf_append ((("&#39;"))).data (("&lt;")).data rest 2 (by decide)
      (by decide) (by decide))]
  rw [replaceAllL_skip ((("&#39;"))).data [sq] 'l' ('t' :: ';' :: rest)
    (not_prefixOf_append ((("&#39;"))).data ['l'] ('t' :: ';' :: rest) 1 (by decide)
      (by decide) (by decide))]
  rw [replaceAllL_skip ((("&#39;"))).data [sq] 't' (';' :: rest)
    (not_prefixOf_append ((("&#39;"))).data ['t'] (';' :: rest) 1 (by decide)
      (by decide) (by decide))]
  rw [replaceAllL_skip ((("&#39;"))).data [sq] ';' (rest)
    (not_prefixOf_append ((("&#39;"))).data [';'] (rest) 1 (by decide)
      (by decide) (by decide))]

theorem skip1_gt (rest : List Char) :
    replaceAllL ((("&#39;"))).data [sq] ((("&gt;")).data ++ rest) =
      (("&gt;")).data ++ replaceAllL ((("&#39;"))).data [sq] rest := by
  show replaceAllL ((("&#39;"))).data [sq] ('&' :: 'g' :: 't' :: ';' :: rest) =
    '&' :: 'g' :: 't' :: ';' :: replaceAllL ((("&#39;"))).data [sq] rest
  rw [replaceAllL_skip ((("&#39;"))).data [sq] '&' ('g' :: 't' :: ';' :: rest)
    (not_prefixOf_append ((("&#39;"))).data (("&gt;")).data rest 2 (by decide)
      (by decide) (by decide))]
  rw [replaceAllL_skip ((("&#39;"))).data [sq] 'g' ('t' :: ';' :: rest)
    (not_prefixOf_append ((("&#39;"))).data ['g'] ('t' :: ';' :: rest) 1 (by decide)
      (by decide) (by decide))]
  rw [replaceAllL_skip ((("&#39;"))).data [sq] 't' (';' :: rest)
    (not_prefixOf_append ((("&#39;"))).data ['t'] (';' :: rest) 1 (by decide)
      (by decide) (by decide))]
  rw [replaceAllL_skip ((("&#39;"))).data [sq] ';' (rest)
    (not_prefixOf_append ((("&#39;"))).data [';'] (rest) 1 (by decide)
      (by decide) (by decide))]

theorem skip1_quot (rest : List Char) :
    replaceAllL ((("&#39;"))).data [sq] ((("&quot;")).data ++ rest) =
      (("&quot;")).data ++ replaceAllL ((("&#39;"))).data [sq] rest := by
  show replaceAllL ((("&#39;"))).data [sq] ('&' :: 'q' :: 'u' :: 'o' :: 't' :: ';' :: rest) =
    '&' :: 'q' :: 'u' :: 'o' :: 't' :: ';' :: replaceAllL ((("&#39;"))).data [sq] rest
  rw [replaceAllL_skip ((("&#39;"))).data [sq] '&' ('q' :: 'u' :: 'o' :: 't' :: ';' :: rest)
    (not_prefixOf_append ((("&#39;"))).data (("&quot;")).data rest 2 (by decide)
      (by decide) (by decide))]
  rw [replaceAllL_skip ((("&#39;"))).data [sq] 'q' ('u' :: 'o' :: 't' :: ';' :: rest)
    (not_prefixOf_append ((("&#39;"))).data ['q'] ('u' :: 'o' :: 't' :: ';' :: rest) 1 (by decide)
      (by decide) (by decide))]
  rw [replaceAllL_skip ((("&#39;"))).data [sq] 'u' ('o' :: 't' :: ';' :: rest)
    (not_prefixOf_append ((("&#39;"))).data ['u'] ('o' :: 't' :: ';' :: rest) 1 (by decide)
      (by decide) (by decide))]
  rw [replaceAllL_skip ((("&#39;"))).data [sq] 'o' ('t' :: ';' :: rest)
    (not_prefixOf_append ((("&#39;"))).data ['o'] ('t' :: ';' :: rest) 1 (by decide)
      (by decide) (by decide))]
  rw [replaceAllL_skip ((("&#39;"))).data [sq] 't' (';' :: rest)
    (not_prefixOf_append ((("&#39;"))).data ['t'] (';' :: rest) 1 (by decide)
      (by decide) (by decide))]
  rw [replaceAllL_skip ((("&#39;"))).data [sq] ';' (rest)
    (not_prefixOf_append ((("&#39;"))).data [';'] (rest) 1 (by decide)
      (by decide) (by decide))]

theorem skip2_amp (rest : List Char) :
    replaceAllL ((("&quot;"))).data ['"'] ((("&amp;")).data ++ rest) =
      (("&amp;")).data ++ replaceAllL ((("&quot;"))).data ['"'] rest := by
  show replaceAllL ((("&quot;"))).data ['"'] ('&' :: 'a' :: 'm' :: 'p' :: ';' :: rest) =
    '&' :: 'a' :: 'm' :: 'p' :: ';' :: replaceAllL ((("&quot;"))).data ['"'] rest
  rw [replaceAllL_skip ((("&quot;"))).data ['"'] '&' ('a' :: 'm' :: 'p' :: ';' :: rest)
    (not_prefixOf_append ((("&quot;"))).data (("&amp;")).data rest 2 (by decide)
      (by decide) (by decide))]
  rw [replaceAllL_skip ((("&quot;"))).data ['"'] 'a' ('m' :: 'p' :: ';' :: rest)
    (not_prefixOf_append ((("&quot;"))).data ['a'] ('m' :: 'p' :: ';' :: rest) 1 (by decide)
      (by decide) (by decide))]
  rw [replaceAllL_skip ((("&quot;"))).data ['"'] 'm' ('p' :: ';' :: rest)
    (not_prefixOf_append ((("&quot;"))).data ['m'] ('p' :: ';' :: rest) 1 (by decide)
      (by decide) (by decide))]
  rw [replaceAllL_skip ((("&quot;"))).data ['"'] 'p' (';' :: rest)
    (not_prefixOf_append ((("&quot;"))).data ['p'] (';' :: rest) 1 (by decide)
      (by decide) (by decide))]
  rw [replaceAllL_skip ((("&quot;"))).data ['"'] ';' (rest)
    (not_prefixOf_append ((("&quot;"))).data [';'] (rest) 1 (by decide)
      (by decide) (by decide))]

theorem skip2_lt (rest : List Char) :
    replaceAllL ((("&quot;"))).data ['"'] ((("&lt;")).data ++ rest) =
      (("&lt;")).data ++ replaceAllL ((("&quot;"))).data ['"'] rest := by
  show replaceAllL ((("&quot;"))).data ['"'] ('&' :: 'l' :: 't' :: ';' :: rest) =
    '&' :: 'l' :: 't' :: ';' :: replaceAllL ((("&quot;"))).data ['"'] rest
  rw [replaceAllL_skip ((("&quot;"))).data ['"'] '&' ('l' :: 't' :: ';' :: rest)
    (not_prefixOf_append ((("&quot;"))).data (("&lt;")).data rest 2 (by decide)
      (by decide) (by decide))]
  rw [replaceAllL_skip ((("&quot;"))).data ['"'] 'l' ('t' :: ';' :: rest)
    (not_prefixOf_append ((("&quot;"))).data ['l'] ('t' :: ';' :: rest) 1 (by decide)
      (by decide) (by decide))]
  rw [replaceAllL_skip ((("&quot;"))).data ['"'] 't' (';' :: rest)
    (not_prefixOf_append ((("&quot;"))).data ['t'] (';' :: rest) 1 (by decide)
      (by decide) (by decide))]
  rw [replaceAllL_skip ((("&quot;"))).data ['"'] ';' (rest)
    (not_prefixOf_append ((("&quot;"))).data [';'] (rest) 1 (by decide)
      (by decide) (by decide))]

theorem skip2_gt (rest : List Char) :
    replaceAllL ((("&quot;"))).data ['"'] ((("&gt;")).data ++ rest) =
      (("&gt;")).data ++ replaceAllL ((("&quot;"))).data ['"'] rest := by
  show replaceAllL ((("&quot;"))).data ['"'] ('&' :: 'g' :: 't' :: ';' :: rest) =
    '&' :: 'g' :: 't' :: ';' :: replaceAllL ((("&quot;"))).data ['"'] rest
  rw [replaceAllL_skip ((("&quot;"))).data ['"'] '&' ('g' :: 't' :: ';' :: rest)
    (not_prefixOf_append ((("&quot;"))).data (("&gt;")).data rest 2 (by decide)
      (by decide) (by decide))]
  rw [replaceAllL_skip ((("&quot;"))).data ['"'] 'g' ('t' :: ';' :: rest)
    (not_prefixOf_append ((("&quot;"))).data ['g'] ('t' :: ';' :: rest) 1 (by decide)
      (by decide) (by decide))]
  rw [replaceAllL_skip ((("&quot;"))).data ['"'] 't' (';' :: rest)
    (not_prefixOf_append ((("&quot;"))).data ['t'] (';' :: rest) 1 (by decide)
      (by decide) (by decide))]
  rw [replaceAllL_skip ((("&quot;"))).data ['"'] ';' (rest)
    (not_prefixOf_append ((("&quot;"))).data [';'] (rest) 1 (by decide)
      (by decide) (by decide))]

theorem skip3_amp (rest : List Char) :
    replaceAllL ((("&gt;"))).data ['>'] ((("&amp;")).data ++ rest) =
      (("&amp;")).data ++ replaceAllL ((("&gt;"))).data ['>'] rest := by
  show replaceAllL ((("&gt;"))).data ['>'] ('&' :: 'a' :: 'm' :: 'p' :: ';' :: rest) =
    '&' :: 'a' :: 'm' :: 'p' :: ';' :: replaceAllL ((("&gt;"))).data ['>'] rest
  rw [replaceAllL_skip ((("&gt;"))).data ['>'] '&' ('a' :: 'm' :: 'p' :: ';' :: rest)
    (not_prefixOf_append ((("&gt;"))).data (("&amp;")).data rest 2 (by decide)
      (by decide) (by decide))]
  rw [replaceAllL_skip ((("&gt;"))).data ['>'] 'a' ('m' :: 'p' :: ';' :: rest)
    (not_prefixOf_append ((("&gt;"))).data ['a'] ('m' :: 'p' :: ';' :: rest) 1 (by decide)
      (by decide) (by decide))]
  rw [replaceAllL_skip ((("&gt;"))).data ['>'] 'm' ('p' :: ';' :: rest)
    (not_prefixOf_append ((("&gt;"))).data ['m'] ('p' :: ';' :: rest) 1 (by decide)
      (by decide) (by decide))]
  rw [replaceAllL_skip ((("&gt;"))).data ['>'] 'p' (';' :: rest)
    (not_prefixOf_append ((("&gt;"))).data ['p'] (';' :: rest) 1 (by decide)
      (by decide) (by decide))]
  rw [replaceAllL_skip ((("&gt;"))).data ['>'] ';' (rest)
    (not_prefixOf_append ((("&gt;"))).data [';'] (rest) 1 (by decide)
      (by decide) (by decide))]

theorem skip3_lt (rest : List Char) :
    replaceAllL ((("&gt;"))).data ['>'] ((("&lt;")).data ++ rest) =
      (("&lt;")).data ++ replaceAllL ((("&gt;"))).data ['>'] rest := by
  show replaceAllL ((("&gt;"))).data ['>'] ('&' :: 'l' :: 't' :: ';' :: rest) =
    '&' :: 'l' :: 't' :: ';' :: replaceAllL ((("&gt;"))).data ['>'] rest
  rw [replaceAllL_skip ((("&gt;"))).data ['>'] '&' ('l' :: 't' :: ';' :: rest)
    (not_prefixOf_append ((("&gt;"))).data (("&lt;")).data rest 2 (by decide)
      (by decide) (by decide))]
  rw [replaceAllL_skip ((("&gt;"))).data ['>'] 'l' ('t' :: ';' :: rest)
    (not_prefixOf_append ((("&gt;"))).data ['l'] ('t' :: ';' :: rest) 1 (by decide)
      (by decide) (by decide))]
  rw [replaceAllL_skip ((("&gt;"))).data ['>'] 't' (';' :: rest)
    (not_prefixOf_append ((("&gt;"))).data ['t'] (';' :: rest) 1 (by decide)
      (by decide) (by decide))]
  rw [replaceAllL_skip ((("&gt;"))).data ['>'] ';' (rest)
    (not_prefixOf_append ((("&gt;"))).data [';'] (rest) 1 (by decide)
      (by decide) (by decide))]

theorem skip4_amp (rest : List Char) :
    replaceAllL ((("&lt;"))).data ['<'] ((("&amp;")).data ++ rest) =
      (("&amp;")).data ++ replaceAllL ((("&lt;"))).data ['<'] rest := by
  show replaceAllL ((("&lt;"))).data ['<'] ('&' :: 'a' :: 'm' :: 'p' :: ';' :: rest) =
    '&' :: 'a' :: 'm' :: 'p' :: ';' :: replaceAllL ((("&lt;"))).data ['<'] rest
  rw [replaceAllL_skip ((("&lt;"))).data ['<'] '&' ('a' :: 'm' :: 'p' :: ';' :: rest)
    (not_prefixOf_append ((("&lt;"))).data (("&amp;")).data rest 2 (by decide)
      (by decide) (by decide))]
  rw [replaceAllL_skip ((("&lt;"))).data ['<'] 'a' ('m' :: 'p' :: ';' :: rest)
    (not_prefixOf_append ((("&lt;"))).data ['a'] ('m' :: 'p' :: ';' :: rest) 1 (by decide)
      (by decide) (by decide))]
  rw [replaceAllL_skip ((("&lt;"))).data ['<'] 'm' ('p' :: ';' :: rest)
    (not_prefixOf_append ((("&lt;"))).data ['m'] ('p' :: ';' :: rest) 1 (by decide)
      (by decide) (by decide))]
  rw [replaceAllL_skip ((("&lt;"))).data ['<'] 'p' (';' :: rest)
    (not_prefixOf_append ((("&lt;"))).data ['p'] (';' :: rest) 1 (by decide)
      (by decide) (by decide))]
  rw [replaceAllL_skip ((("&lt;"))).data ['<'] ';' (rest)
    (not_prefixOf_append ((("&lt;"))).data [';'] (rest) 1 (by decide)
      (by decide) (by decide))]

theorem pass1_chunk (c : Char) (rest : List Char) :
    replaceAllL ((("&#39;"))).data [sq] (escChar c ++ rest) =
      escCharA c ++ replaceAllL ((("&#39;"))).data [sq] rest := by
  by_cases h1 : c = '&'
  · subst h1
    rw [show escChar '&' = (("&amp;")).data from by decide,
      show escCharA '&' = (("&amp;")).data from by decide]
    exact skip1_amp rest
  · by_cases h2 : c = '<'
    · subst h2
      rw [show escChar '<' = (("&lt;")).data from by decide,
        show escCharA '<' = (("&lt;")).data from by decide]
      exact skip1_lt rest
    · by_cases h3 : c = '>'
      · subst h3
        rw [show escChar '>' = (("&gt;")).data from by decide,
          show escCharA '>' = (("&gt;")).data from by decide]
        exact skip1_gt rest
      · by_cases h4 : c = '"'
        · subst h4
          rw [show escChar '"' = (("&quot;")).data from by decide,
            show escCharA '"' = (("&quot;")).data from by decide]
          exact skip1_quot rest
        · by_cases h5 : c = sq
          · subst h5
            rw [show escChar sq = (("&#39;")).data from by decide,
              show escCharA sq = [sq] from by decide]
            exact replaceAllL_consume ((("&#39;"))).data [sq] rest (by decide)
          · rw [escChar_other c h1 h2 h3 h4 h5, escCharA_other c h1 h2 h3 h4 h5]
            exact replaceAllL_skip _ _ c rest
              (not_prefixOf_cons_ne_amp ((("#39;"))).data c rest h1)

theorem pass2_chunk (c : Char) (rest : List Char) :
    replaceAllL ((("&quot;"))).data ['"'] (escCharA c ++ rest) =
      escCharB c ++ replaceAllL ((("&quot;"))).data ['"'] rest := by
  by_cases h1 : c = '&'
  · subst h1
    rw [show escCharA '&' = (("&amp;")).data from by decide,
      show escCharB '&' = (("&amp;")).data from by decide]
    exact skip2_amp rest
  · by_cases h2 : c = '<'
    · subst h2
      rw [show escCharA '<' = (("&lt;")).data from by decide,
        show escCharB '<' = (("&lt;")).data from by decide]
      exact skip2_lt rest
    · by_cases h3 : c = '>'
      · subst h3
        rw [show escCharA '>' = (("&gt;")).data from by decide,
          show escCharB '>' = (("&gt;")).data from by decide]
        exact skip2_gt rest
      · by_cases h4 : c = '"'
        · subst h4
          rw [show escCharA '"' = (("&quot;")).data from by decide,
            show escCharB '"' = ['"'] from by decide]
          exact replaceAllL_consume ((("&quot;"))).data ['"'] rest (by decide)
        · by_cases h5 : c = sq
          · subst h5
            rw [show escCharA sq = [sq] from by decide,
              show escCharB sq = [sq] from by decide]
            exact replaceAllL_skip _ _ sq rest
              (not_prefixOf_cons_ne_amp ((("quot;"))).data sq rest (by decide))
          · rw [escCharA_other c h1 h2 h3 h4 h5, escCharB_other c h1 h2 h3 h4 h5]
            exact replaceAllL_skip _ _ c rest
              (not_prefixOf_cons_ne_amp ((("quot;"))).data c rest h1)

theorem pass3_chunk (c : Char) (rest : List Char) :
    replaceAllL ((("&gt;"))).data ['>'] (escCharB c ++ rest) =
      escCharC c ++ replaceAllL ((("&gt;"))).data ['>'] rest := by
  by_cases h1 : c = '&'
  · subst h1
    rw [show escCharB '&' = (("&amp;")).data from by decide,
      show escCharC '&' = (("&amp;")).data from by decide]
    exact skip3_amp rest
  · by_cases h2 : c = '<'
    · subst h2
      rw [show escCharB '<' = (("&lt;")).data from by decide,
        show escCharC '<' = (("&lt;")).data from by decide]
      exact skip3_lt rest
    · by_cases h3 : c = '>'
      · subst h3
        rw [show escCharB '>' = (("&gt;")).data from by decide,
          show escCharC '>' = ['>'] from by decide]
        exact replaceAllL_consume ((("&gt;"))).data ['>'] rest (by decide)
      · by_cases h4 : c = '"'
        · subst h4
          rw [show escCharB '"' = ['"'] from by decide,
            show escCharC '"' = ['"'] from by decide]
          exact replaceAllL_skip _ _ '"' rest
            (not_prefixOf_cons_ne_amp ((("gt;"))).data '"' rest (by decide))
        · by_cases h5 : c = sq
          · subst h5
            rw [show escCharB sq = [sq] from by decide,
              show escCharC sq = [sq] from by decide]
            exact replaceAllL_skip _ _ sq rest
              (not_prefixOf_cons_ne_amp ((("gt;"))).data sq rest (by decide))
          · rw [escCharB_other c h1 h2 h3 h4 h5, escCharC_other c h1 h2 h3 h4 h5]
            exact replaceAllL_skip _ _ c rest
              (not_prefixOf_cons_ne_amp ((("gt;"))).data c rest h1)

theorem pass4_chunk (c : Char) (rest : List Char) :
    replaceAllL ((("&lt;"))).data ['<'] (escCharC c ++ rest) =
      escCharD c ++ replaceAllL ((("&lt;"))).data ['<'] rest := by
  by_cases h1 : c = '&'
  · subst h1
    rw [show escCharC '&' = (("&amp;")).data from by decide,
      show escCharD '&' = (("&amp;")).data from by decide]
    exact skip4_amp rest
  · by_cases h2 : c = '<'
    · subst h2
      rw [show escCharC '<' = (("&lt;")).data from by decide,
        show escCharD '<' = ['<'] from by decide]
      exact replaceAllL_consume ((("&lt;"))).data ['<'] rest (by decide)
    · by_cases h3 : c = '>'
      · subst h3
        rw [show escCharC '>' = ['>'] from by decide,
          show escCharD '>' = ['>'] from by decide]
        exact replaceAllL_skip _ _ '>' rest
          (not_prefixOf_cons_ne_amp ((("lt;"))).data '>' rest (by decide))
      · by_cases h4 : c = '"'
        · subst h4
          rw [show escCharC '"' = ['"'] from by decide,
            show escCharD '"' = ['"'] from by decide]
          exact replaceAllL_skip _ _ '"' rest
            (not_prefixOf_cons_ne_amp ((("lt;"))).data '"' rest (by decide))
        · by_cases h5 : c = sq
          · subst h5
            rw [show escCharC sq = [sq] from by decide,
              show escCharD sq = [sq] from by decide]
            exact replaceAllL_skip _ _ sq rest
              (not_prefixOf_cons_ne_amp ((("lt;"))).data sq rest (by decide))
          · rw [escCharC_other c h1 h2 h3 h4 h5, escCharD_other c h1 h2 h3 h4 h5]
            exact replaceAllL_skip _ _ c rest
              (not_prefixOf_cons_ne_amp ((("lt;"))).data c rest h1)

theorem pass5_chunk (c : Char) (rest : List Char) :
    replaceAllL ((("&amp;"))).data ['&'] (escCharD c ++ rest) =
      [c] ++ replaceAllL ((("&amp;"))).data ['&'] rest := by
  by_cases h1 : c = '&'
  · subst h1
    rw [show escCharD '&' = (("&amp;")).data from by decide]
    exact replaceAllL_consume ((("&amp;"))).data ['&'] rest (by decide)
  · by_cases h2 : c = '<'
    · subst h2
      rw [show escCharD '<' = ['<'] from by decide]
      exact replaceAllL_skip _ _ '<' rest
        (not_prefixOf_cons_ne_amp ((("amp;"))).data '<' rest (by decide))
    · by_cases h3 : c = '>'
      · subst h3
        rw [show escCharD '>' = ['>'] from by decide]
        exact replaceAllL_skip _ _ '>' rest
          (not_prefixOf_cons_ne_amp ((("amp;"))).data '>' rest (by decide))
      · by_cases h4 : c = '"'
        · subst h4
          rw [show escCharD '"' = ['"'] from by decide]
          exact replaceAllL_skip _ _ '"' rest
            (not_prefixOf_cons_ne_amp ((("amp;"))).data '"' rest (by decide))
        · by_cases h5 : c = sq
          · subst h5
            rw [show escCharD sq = [sq] from by decide]
            exact replaceAllL_skip _ _ sq rest
              (not_prefixOf_cons_ne_amp ((("amp;"))).data sq rest (by decide))
          · rw [escCharD_other c h1 h2 h3 h4 h5]
            exact replaceAllL_skip _ _ c rest
              (not_prefixOf_cons_ne_amp ((("amp;"))).data c rest h1)

theorem chunksMap_singleton (l : List Char) : chunksMap (fun c => [c]) l = l := by
  induction l with
  | nil => rfl
  | cons c t ih =>
    show [c] ++ chunksMap (fun x => [x]) t = c :: t
    rw [ih]
    rfl

theorem string_mk_data (s : String) : String.mk s.data = s := by
  cases s
  rfl

/-- Decoding the escaped output reproduces the original string. -/
theorem unescape_escape (s : String) : unescapeHtml (escapeHtml s) = s := by
  unfold unescapeHtml
  rw [escapeHtml_data s]
  rw [decode_pass ((("&#39;"))).data [sq] escChar escCharA pass1_chunk s.data]
  rw [decode_pass ((("&quot;"))).data ['"'] escCharA escCharB pass2_chunk s.data]
  rw [decode_pass ((("&gt;"))).data ['>'] escCharB escCharC pass3_chunk s.data]
  rw [decode_pass ((("&lt;"))).data ['<'] escCharC escCharD pass4_chunk s.data]
  rw [decode_pass ((("&amp;"))).data ['&'] escCharD (fun c => [c]) pass5_chunk s.data]
  rw [chunksMap_singleton s.data]

/-- No raw occurrence of the four characters `<`, `>`, `"`, apostrophe. -/
def rawFree (l : List Char) : Bool :=
  l.all (fun c => !(c == '<') && !(c == '>') && !(c == '"') && !(c == sq))

/-- One of the five escape sequences follows (after a leading `&`). -/
def escFollows (l : List Char) : Bool :=
  ((("amp;"))).data.isPrefixOf l || ((("lt;"))).data.isPrefixOf l ||
    ((("gt;"))).data.isPrefixOf l || ((("quot;"))).data.isPrefixOf l ||
    ((("#39;"))).data.isPrefixOf l

/-- Every occurrence of `&` begins one of the five escape sequences. -/
def ampsEscaped : List Char → Bool
  | [] => true
  | c :: rest => (if c = '&' then escFollows rest else true) && ampsEscaped rest

theorem rawFree_append (a b : List Char) :
    rawFree (a ++ b) = (rawFree a && rawFree b) := List.all_append

theorem rawFree_escChar (c : Char) : rawFree (escChar c) = true := by
  by_cases h1 : c = '&'
  · subst h1; decide
  · by_cases h2 : c = '<'
    · subst h2; decide
    · by_cases h3 : c = '>'
      · subst h3; decide
      · by_cases h4 : c = '"'
        · subst h4; decide
        · by_cases h5 : c = sq
          · subst h5; decide
          · rw [escChar_other c h1 h2 h3 h4 h5]
            show ((!(c == '<') && !(c == '>') && !(c == '"') && !(c == sq)) &&
              rawFree []) = true
            rw [show (c == '<') = false from beq_eq_false_iff_ne.mpr h2,
              show (c == '>') = false from beq_eq_false_iff_ne.mpr h3,
              show (c == '"') = false from beq_eq_false_iff_ne.mpr h4,
              show (c == sq) = false from beq_eq_false_iff_ne.mpr h5]
            rfl

theorem rawFree_chunksMap (l : List Char) : rawFree (chunksMap escChar l) = true := by
  induction l with
  | nil => rfl
  | cons c t ih =>
    show rawFree (escChar c ++ chunksMap escChar t) = true
    rw [rawFree_append, rawFree_escChar, ih]
    rfl

theorem ampsEscaped_cons_ne (c : Char) (rest : List Char) (h : ¬ c = '&') :
    ampsEscaped (c :: rest) = ampsEscaped rest := by
  show ((if c = '&' then escFollows rest else true) && ampsEscaped rest) = ampsEscaped rest
  rw [if_neg h]
  exact Bool.true_and _

theorem ampsEscaped_amp (rest : List Char) (h : escFollows rest = true) :
    ampsEscaped (('&') :: rest) = ampsEscaped rest := by
  show ((if ('&') = '&' then escFollows rest else true) && ampsEscaped rest) =
    ampsEscaped rest
  rw [if_pos rfl, h]
  exact Bool.true_and _

theorem escFollows_amp (rest : List Char) :
    escFollows ((("amp;")).data ++ rest) = true := by
  have h : ((("amp;"))).data.isPrefixOf ((("amp;")).data ++ rest) = true :=
    List.isPrefixOf_iff_prefix.mpr (List.prefix_append _ _)
  unfold escFollows
  rw [h]
  rfl

theorem escFollows_lt (rest : List Char) :
    escFollows ((("lt;")).data ++ rest) = true := by
  have h : ((("lt;"))).data.isPrefixOf ((("lt;")).data ++ rest) = true :=
    List.isPrefixOf_iff_prefix.mpr (List.prefix_append _ _)
  unfold escFollows
  rw [h]
  simp

theorem escFollows_gt (rest : List Char) :
    escFollows ((("gt;")).data ++ rest) = true := by
  have h : ((("gt;"))).data.isPrefixOf ((("gt;")).data ++ rest) = true :=
    List.isPrefixOf_iff_prefix.mpr (List.prefix_append _ _)
  unfold escFollows
  rw [h]
  simp

theorem escFollows_quot (rest : List Char) :
    escFollows ((("quot;")).data ++ rest) = true := by
  have h : ((("quot;"))).data.isPrefixOf ((("quot;")).data ++ rest) = true :=
    List.isPrefixOf_iff_prefix.mpr (List.prefix_append _ _)
  unfold escFollows
  rw [h]
  simp

theorem escFollows_39 (rest : List Char) :
    escFollows ((("#39;")).data ++ rest) = true := by
  have h : ((("#39;"))).data.isPrefixOf ((("#39;")).data ++ rest) = true :=
    List.isPrefixOf_iff_prefix.mpr (List.prefix_append _ _)
  unfold escFollows
  rw [h]
  simp

theorem ampsEscaped_escChar (c : Char) (rest : List Char) :
    ampsEscaped (escChar c ++ rest) = ampsEscaped rest := by
  by_cases h1 : c = '&'
  · subst h1
    rw [show escChar '&' = (("&amp;")).data from by decide]
    show ampsEscaped (('&') :: ('a' :: 'm' :: 'p' :: ';' :: rest)) = ampsEscaped rest
    rw [ampsEscaped_amp ('a' :: 'm' :: 'p' :: ';' :: rest) (escFollows_amp rest)]
    rw [ampsEscaped_cons_ne 'a' _ (by decide), ampsEscaped_cons_ne 'm' _ (by decide),
      ampsEscaped_cons_ne 'p' _ (by decide), ampsEscaped_cons_ne ';' _ (by decide)]
  · by_cases h2 : c = '<'
    · subst h2
      rw [show escChar '<' = (("&lt;")).data from by decide]
      show ampsEscaped (('&') :: ('l' :: 't' :: ';' :: rest)) = ampsEscaped rest
      rw [ampsEscaped_amp ('l' :: 't' :: ';' :: rest) (escFollows_lt rest)]
      rw [ampsEscaped_cons_ne 'l' _ (by decide), ampsEscaped_cons_ne 't' _ (by decide),
        ampsEscaped_cons_ne ';' _ (by decide)]
    · by_cases h3 : c = '>'
      · subst h3
        rw [show escChar '>' = (("&gt;")).data from by decide]
        show ampsEscaped (('&') :: ('g' :: 't' :: ';' :: rest)) = ampsEscaped rest
        rw [ampsEscaped_amp ('g' :: 't' :: ';' :: rest) (escFollows_gt rest)]
        rw [ampsEscaped_cons_ne 'g' _ (by decide), ampsEscaped_cons_ne 't' _ (by decide),
          ampsEscaped_cons_ne ';' _ (by decide)]
      · by_cases h4 : c = '"'
        · subst h4
          rw [show escChar '"' = (("&quot;")).data from by decide]
          show ampsEscaped (('&') :: ('q' :: 'u' :: 'o' :: 't' :: ';' :: rest)) =
            ampsEscaped rest
          rw [ampsEscaped_amp ('q' :: 'u' :: 'o' :: 't' :: ';' :: rest) (escFollows_quot rest)]
          rw [ampsEscaped_cons_ne 'q' _ (by decide), ampsEscaped_cons_ne 'u' _ (by decide),
            ampsEscaped_cons_ne 'o' _ (by decide), ampsEscaped_cons_ne 't' _ (by decide),
            ampsEscaped_cons_ne ';' _ (by decide)]
        · by_cases h5 : c = sq
          · subst h5
            rw [show escChar sq = (("&#39;")).data from by decide]
            show ampsEscaped (('&') :: ('#' :: '3' :: '9' :: ';' :: rest)) =
              ampsEscaped rest
            rw [ampsEscaped_amp ('#' :: '3' :: '9' :: ';' :: rest) (escFollows_39 rest)]
            rw [ampsEscaped_cons_ne '#' _ (by decide), ampsEscaped_cons_ne '3' _ (by decide),
              ampsEscaped_cons_ne '9' _ (by decide), ampsEscaped_cons_ne ';' _ (by decide)]
          · rw [escChar_other c h1 h2 h3 h4 h5]
            exact ampsEscaped_cons_ne c rest h1

theorem ampsEscaped_chunksMap (l : List Char) :
    ampsEscaped (chunksMap escChar l) = true := by
  induction l with
  | nil => rfl
  | cons c t ih =>
    show ampsEscaped (escChar c ++ chunksMap escChar t) = true
    rw [ampsEscaped_escChar, ih]

/-- Claim C8: `escapeHtml` substitutes the five reserved characters in
the order `&`, `<`, `>`, `"`, apostrophe; the escaped text contains no
raw occurrence of them (the four non-ampersand characters are absent,
and every remaining `&` begins one of the five escape sequences); and
reversing the five substitutions reproduces the original string
exactly, for every input string. -/
theorem claim_C8 (s : String) :
    rawFree ((escapeHtml s).data) = true ∧
    ampsEscaped ((escapeHtml s).data) = true ∧
    unescapeHtml (escapeHtml s) = s := by
  refine ⟨?_, ?_, unescape_escape s⟩
  · rw [escapeHtml_data s]
    exact rawFree_chunksMap s.data
  · rw [escapeHtml_data s]
    exact ampsEscaped_chunksMap s.data

/-! ## Counting segments in renderer output -/

/-- Count the chunks equal to a given segment literal. -/
def countChunk (c : String) : List String → Nat
  | [] => 0
  | x :: t => (if x = c then 1 else 0) + countChunk c t

/-- A chunk is a body chunk when it starts with the body-opening tag. -/
def isBodyChunk (c : String) : Bool :=
  ((("<div class=\"timeline-body\">"))).data.isPrefixOf c.data

/-- Count the body chunks of a chunk sequence. -/
def countBodyChunks : List String → Nat
  | [] => 0
  | x :: t => (if isBodyChunk x then 1 else 0) + countBodyChunks t

theorem countChunk_nil (c : String) : countChunk c [] = 0 := rfl

theorem countChunk_cons (c x : String) (t : List String) :
    countChunk c (x :: t) = (if x = c then 1 else 0) + countChunk c t := rfl

theorem countChunk_append (c : String) (a b : List String) :
    countChunk c (a ++ b) = countChunk c a + countChunk c b := by
  induction a with
  | nil => exact (Nat.zero_add _).symm
  | cons x xs ih =>
    rw [List.cons_append, countChunk_cons, countChunk_cons, ih, Nat.add_assoc]

theorem countBodyChunks_append (a b : List String) :
    countBodyChunks (a ++ b) = countBodyChunks a + countBodyChunks b := by
  induction a with
  | nil => exact (Nat.zero_add _).symm
  | cons x xs ih =>
    show (if isBodyChunk x then 1 else 0) + countBodyChunks (xs ++ b) = _
    rw [ih]
    show _ = (if isBodyChunk x then 1 else 0) + countBodyChunks xs + countBodyChunks b
    rw [Nat.add_assoc]

theorem nodeClsCount_mk (c cl tx : String) (ats : List (String × String))
    (cs : List Node) :
    nodeClsCount c (Node.mk cl tx ats cs) =
      (if cl = c then 1 else 0) +
        (if cl = ("timeline-body") then 0 else nodesClsCount c cs) := rfl

theorem nodesClsCount_nil (c : String) : nodesClsCount c [] = 0 := rfl

theorem nodesClsCount_cons (c : String) (n : Node) (t : List Node) :
    nodesClsCount c (n :: t) = nodeClsCount c n + nodesClsCount c t := rfl

theorem nodesClsCount_append (c : String) (a b : List Node) :
    nodesClsCount c (a ++ b) = nodesClsCount c a + nodesClsCount c b := by
  induction a with
  | nil => exact (Nat.zero_add _).symm
  | cons n t ih =>
    rw [List.cons_append, nodesClsCount_cons, nodesClsCount_cons, ih, Nat.add_assoc]

/-- Claim C6: parsing the empty string or a whitespace-only string
yields the empty entry sequence, and rendering an empty sequence, in
either renderer, emits exactly the empty indicator with the fixed
message and nothing else: no start marker, no per-item markers, no
items. -/
theorem claim_C6 :
    parseTimelineSource (("")) = [] ∧
    parseTimelineSource (("   \n\n  ")) = [] ∧
    (∀ s : String, (∀ c ∈ s.data, jsWs c = true) → parseTimelineSource s = []) ∧
    (∀ (md : String → List Node) (settings : TimelinePluginSettings),
      renderTimelineEntries md [] settings =
        [Node.mk ("timeline-empty") ("No timeline entries found.") [] []] ∧
      nodesClsCount ("timeline-start-marker") (renderTimelineEntries md [] settings) = 0 ∧
      nodesClsCount ("timeline-marker") (renderTimelineEntries md [] settings) = 0 ∧
      nodesClsCount ("timeline-item") (renderTimelineEntries md [] settings) = 0) ∧
    (∀ (mdH : String → String) (settings : TimelinePluginSettings),
      renderEntriesChunks mdH [] settings = [timelineOpenChunk, emptyChunk] ∧
      countChunk startMarkerChunk (renderEntriesChunks mdH [] settings) = 0 ∧
      countChunk markerChunk (renderEntriesChunks mdH [] settings) = 0 ∧
      countChunk itemOpenChunk (renderEntriesChunks mdH [] settings) = 0) := by
  refine ⟨by decide, by decide, ?_, ?_, ?_⟩
  · intro s hws
    have htrim : trimL s.data = [] := by
      unfold trimL
      rw [List.dropWhile_eq_nil_iff.mpr (fun x hx => hws x hx)]
      rfl
    unfold parseTimelineSource
    rw [if_pos ?_]
    show (jsTrim s).length = 0
    show (jsTrim s).data.length = 0
    show (trimL s.data).length = 0
    rw [htrim]
    rfl
  · intro md settings
    exact ⟨rfl, rfl, rfl, rfl⟩
  · intro mdH settings
    exact ⟨rfl, rfl, rfl, rfl⟩

/-- Witness for claim C6 at the whitespace-only string of the
specification. -/
theorem claim_C6_witness : parseTimelineSource (("   \n\n  ")) = [] :=
  claim_C6.2.2.1 (("   \n\n  ")) (by decide)

theorem append_ne_of_take (a b c : String) (k : Nat) (hk : k ≤ a.length)
    (hne : a.data.take k ≠ c.data.take k) : a ++ b ≠ c := by
  intro h
  apply hne
  have hd : a.data ++ b.data = c.data := by rw [← String.data_append, h]
  calc a.data.take k = (a.data ++ b.data).take k :=
        (List.take_append_of_le_length hk).symm
    _ = c.data.take k := by rw [hd]

theorem dateSpanChunk_ne_marker (d : String) : dateSpanChunk d ≠ markerChunk :=
  append_ne_of_take _ _ _ 2 (by decide) (by decide)

theorem dateSpanChunk_ne_start (d : String) : dateSpanChunk d ≠ startMarkerChunk :=
  append_ne_of_take _ _ _ 2 (by decide) (by decide)

theorem titleSpanChunk_ne_marker (t2 : String) : titleSpanChunk t2 ≠ markerChunk :=
  append_ne_of_take _ _ _ 2 (by decide) (by decide)

theorem titleSpanChunk_ne_start (t2 : String) : titleSpanChunk t2 ≠ startMarkerChunk :=
  append_ne_of_take _ _ _ 2 (by decide) (by decide)

theorem bodyChunk_ne_marker (h : String) : bodyChunk h ≠ markerChunk :=
  append_ne_of_take _ _ _ 22 (by decide) (by decide)

theorem bodyChunk_ne_start (h : String) : bodyChunk h ≠ startMarkerChunk :=
  append_ne_of_take _ _ _ 22 (by decide) (by decide)

theorem countChunk_singleton_ne (c x : String) (h : x ≠ c) : countChunk c [x] = 0 := by
  rw [countChunk_cons, if_neg h]
  rfl

theorem countChunk_dateChunkPart (c : String) (settings : TimelinePluginSettings)
    (e : TimelineEntry) (h : ∀ d, dateSpanChunk d ≠ c) :
    countChunk c (dateChunkPart settings e) = 0 := by
  unfold dateChunkPart
  cases dateTextOf settings e with
  | none => rfl
  | some d =>
    show countChunk c (if strTruthy d = true then [dateSpanChunk d] else []) = 0
    by_cases hs : strTruthy d = true
    · rw [if_pos hs]
      exact countChunk_singleton_ne c _ (h d)
    · rw [if_neg hs]
      rfl

theorem countChunk_titleChunkPart (c : String) (e : TimelineEntry)
    (h : ∀ t2, titleSpanChunk t2 ≠ c) :
    countChunk c (titleChunkPart e) = 0 := by
  unfold titleChunkPart
  cases e.title with
  | none => rfl
  | some t2 =>
    show countChunk c (if strTruthy t2 = true then [titleSpanChunk t2] else []) = 0
    by_cases hs : strTruthy t2 = true
    · rw [if_pos hs]
      exact countChunk_singleton_ne c _ (h t2)
    · rw [if_neg hs]
      rfl

theorem countChunk_bodyChunksStatic (c : String) (mdH : String → String)
    (e : TimelineEntry) (h : ∀ x, bodyChunk x ≠ c) :
    countChunk c (bodyChunksStatic mdH e) = 0 := by
  unfold bodyChunksStatic
  split
  · split
    · exact countChunk_singleton_ne c _ (h _)
    · rfl
  · rfl

theorem countChunk_metaChunks (c : String) (settings : TimelinePluginSettings)
    (e : TimelineEntry) (hmeta : metaOpenChunk ≠ c) (hclose : divCloseChunk ≠ c)
    (hdate : ∀ d, dateSpanChunk d ≠ c) (htitle : ∀ t2, titleSpanChunk t2 ≠ c) :
    countChunk c (metaChunks settings e) = 0 := by
  unfold metaChunks
  split
  · rw [countChunk_append, countChunk_append, countChunk_append,
      countChunk_singleton_ne c _ hmeta, countChunk_singleton_ne c _ hclose,
      countChunk_dateChunkPart c settings e hdate, countChunk_titleChunkPart c e htitle]
  · rfl

theorem countChunk_entryChunks_marker (mdH : String → String)
    (settings : TimelinePluginSettings) (e : TimelineEntry) :
    countChunk markerChunk (entryChunks mdH settings e) =
      if settings.showMarkers then 1 else 0 := by
  unfold entryChunks
  rw [countChunk_append, countChunk_append, countChunk_append, countChunk_append,
    countChunk_append]
  rw [countChunk_singleton_ne _ _ (by decide : itemOpenChunk ≠ markerChunk),
    countChunk_singleton_ne _ _ (by decide : contentOpenChunk ≠ markerChunk),
    countChunk_singleton_ne _ _ (by decide : itemCloseChunk ≠ markerChunk),
    countChunk_metaChunks _ _ _ (by decide) (by decide) dateSpanChunk_ne_marker
      titleSpanChunk_ne_marker,
    countChunk_bodyChunksStatic _ _ _ bodyChunk_ne_marker]
  by_cases hm : settings.showMarkers = true
  · rw [if_pos hm, if_pos hm]
    decide
  · rw [if_neg hm, if_neg hm]
    decide

theorem countChunk_entryChunks_start (mdH : String → String)
    (settings : TimelinePluginSettings) (e : TimelineEntry) :
    countChunk startMarkerChunk (entryChunks mdH settings e) = 0 := by
  unfold entryChunks
  rw [countChunk_append, countChunk_append, countChunk_append, countChunk_append,
    countChunk_append]
  rw [countChunk_singleton_ne _ _ (by decide : itemOpenChunk ≠ startMarkerChunk),
    countChunk_singleton_ne _ _ (by decide : contentOpenChunk ≠ startMarkerChunk),
    countChunk_singleton_ne _ _ (by decide : itemCloseChunk ≠ startMarkerChunk),
    countChunk_metaChunks _ _ _ (by decide) (by decide) dateSpanChunk_ne_start
      titleSpanChunk_ne_start,
    countChunk_bodyChunksStatic _ _ _ bodyChunk_ne_start]
  by_cases hm : settings.showMarkers = true
  · rw [if_pos hm]
    decide
  · rw [if_neg hm]
    decide

theorem countChunk_flatten (c : String) (f : TimelineEntry → List String)
    (entries : List TimelineEntry) (k : Nat) (h : ∀ e, countChunk c (f e) = k) :
    countChunk c (entries.map f).flatten = entries.length * k := by
  induction entries with
  | nil => simp [countChunk]
  | cons e t ih =>
    rw [List.map_cons, List.flatten_cons, countChunk_append, h e, ih,
      List.length_cons, Nat.succ_mul, Nat.add_comm]

theorem nodeClsCount_leaf (c cl tx : String) (ats : List (String × String))
    (h : cl ≠ c) : nodeClsCount c (Node.mk cl tx ats []) = 0 := by
  rw [nodeClsCount_mk, if_neg h]
  cases hb : (decide (cl = ("timeline-body")) : Bool)
  · rw [if_neg (of_decide_eq_false hb)]
    rfl
  · rw [if_pos (of_decide_eq_true hb)]

theorem nodesClsCount_liveMeta (c : String) (settings : TimelinePluginSettings)
    (e : TimelineEntry) (h1 : ("timeline-meta") ≠ c) (h2 : ("timeline-date") ≠ c)
    (h3 : ("timeline-title") ≠ c) :
    nodesClsCount c (liveMetaNodes settings e) = 0 := by
  unfold liveMetaNodes
  split
  · rw [nodesClsCount_cons, nodesClsCount_nil, nodeClsCount_mk, if_neg h1,
      if_neg (by decide : ¬ ("timeline-meta") = ("timeline-body"))]
    rw [nodesClsCount_append]
    have hd : nodesClsCount c
        (match dateTextOf settings e with
         | some d => if strTruthy d then [dateNodeL d] else []
         | none => []) = 0 := by
      cases dateTextOf settings e with
      | none => rfl
      | some d =>
        show nodesClsCount c (if strTruthy d = true then [dateNodeL d] else []) = 0
        by_cases hs : strTruthy d = true
        · rw [if_pos hs, nodesClsCount_cons, nodesClsCount_nil]
          unfold dateNodeL
          rw [nodeClsCount_leaf c _ _ _ h2]
        · rw [if_neg hs]
          rfl
    have ht : nodesClsCount c
        (match e.title with
         | some t2 => if strTruthy t2 then [titleNodeL t2] else []
         | none => []) = 0 := by
      cases e.title with
      | none => rfl
      | some t2 =>
        show nodesClsCount c (if strTruthy t2 = true then [titleNodeL t2] else []) = 0
        by_cases hs : strTruthy t2 = true
        · rw [if_pos hs, nodesClsCount_cons, nodesClsCount_nil]
          unfold titleNodeL
          rw [nodeClsCount_leaf c _ _ _ h3]
        · rw [if_neg hs]
          rfl
    rw [hd, ht]
  · rfl

theorem nodeClsCount_liveBody_ne (c : String) (md : String → List Node)
    (e : TimelineEntry) (h : ("timeline-body") ≠ c) :
    nodeClsCount c (liveBodyNode md e) = 0 := by
  unfold liveBodyNode
  rw [nodeClsCount_mk, if_neg h, if_pos rfl]

theorem nodeClsCount_liveBody_self (md : String → List Node) (e : TimelineEntry) :
    nodeClsCount ("timeline-body") (liveBodyNode md e) = 1 := by
  unfold liveBodyNode
  rw [nodeClsCount_mk, if_pos rfl, if_pos rfl]

theorem nodeClsCount_content (c : String) (md : String → List Node)
    (settings : TimelinePluginSettings) (e : TimelineEntry)
    (h0 : ("timeline-content") ≠ c) (h1 : ("timeline-meta") ≠ c)
    (h2 : ("timeline-date") ≠ c) (h3 : ("timeline-title") ≠ c)
    (h4 : ("timeline-body") ≠ c) :
    nodeClsCount c (renderEntryContent md settings e) = 0 := by
  unfold renderEntryContent
  rw [nodeClsCount_mk, if_neg h0,
    if_neg (by decide : ¬ ("timeline-content") = ("timeline-body"))]
  rw [nodesClsCount_append, nodesClsCount_liveMeta c settings e h1 h2 h3,
    nodesClsCount_cons, nodesClsCount_nil, nodeClsCount_liveBody_ne c md e h4]

theorem nodeClsCount_item_marker (md : String → List Node)
    (settings : TimelinePluginSettings) (e : TimelineEntry) :
    nodeClsCount ("timeline-marker") (renderEntryLive md settings e) =
      if settings.showMarkers then 1 else 0 := by
  unfold renderEntryLive
  rw [nodeClsCount_mk,
    if_neg (by decide : ¬ ("timeline-item") = ("timeline-marker")),
    if_neg (by decide : ¬ ("timeline-item") = ("timeline-body"))]
  rw [nodesClsCount_append, nodesClsCount_cons, nodesClsCount_nil,
    nodeClsCount_content _ md settings e (by decide) (by decide) (by decide) (by decide)
      (by decide)]
  by_cases hm : settings.showMarkers = true
  · rw [if_pos hm, if_pos hm]
    decide
  · rw [if_neg hm, if_neg hm]
    decide

theorem nodeClsCount_item_start (md : String → List Node)
    (settings : TimelinePluginSettings) (e : TimelineEntry) :
    nodeClsCount ("timeline-start-marker") (renderEntryLive md settings e) = 0 := by
  unfold renderEntryLive
  rw [nodeClsCount_mk,
    if_neg (by decide : ¬ ("timeline-item") = ("timeline-start-marker")),
    if_neg (by decide : ¬ ("timeline-item") = ("timeline-body"))]
  rw [nodesClsCount_append, nodesClsCount_cons, nodesClsCount_nil,
    nodeClsCount_content _ md settings e (by decide) (by decide) (by decide) (by decide)
      (by decide)]
  by_cases hm : settings.showMarkers = true
  · rw [if_pos hm]
    decide
  · rw [if_neg hm]
    decide

theorem nodesClsCount_map (c : String) (f : TimelineEntry → Node)
    (entries : List TimelineEntry) (k : Nat) (h : ∀ e, nodeClsCount c (f e) = k) :
    nodesClsCount c (entries.map f) = entries.length * k := by
  induction entries with
  | nil => simp [nodesClsCount]
  | cons e t ih =>
    rw [List.map_cons, nodesClsCount_cons, h e, ih, List.length_cons, Nat.succ_mul,
      Nat.add_comm]

theorem entries_length_ne_zero {entries : List TimelineEntry} (hne : entries ≠ []) :
    ¬ entries.length = 0 := by
  intro h
  exact hne (List.length_eq_zero.mp h)

/-- Claim C7: with markers disabled neither renderer emits any marker
segment for a non-empty entry sequence; with markers enabled both emit
exactly one start marker placed before the first item and exactly one
marker per item, placed inside the item before its content. -/
theorem claim_C7 (md : String → List Node) (mdH : String → String)
    (entries : List TimelineEntry) (settings : TimelinePluginSettings)
    (hne : entries ≠ []) :
    (settings.showMarkers = false →
      nodesClsCount ("timeline-start-marker")
        (renderTimelineEntries md entries settings) = 0 ∧
      nodesClsCount ("timeline-marker")
        (renderTimelineEntries md entries settings) = 0 ∧
      countChunk startMarkerChunk (renderEntriesChunks mdH entries settings) = 0 ∧
      countChunk markerChunk (renderEntriesChunks mdH entries settings) = 0) ∧
    (settings.showMarkers = true →
      nodesClsCount ("timeline-start-marker")
        (renderTimelineEntries md entries settings) = 1 ∧
      nodesClsCount ("timeline-marker")
        (renderTimelineEntries md entries settings) = entries.length ∧
      countChunk startMarkerChunk (renderEntriesChunks mdH entries settings) = 1 ∧
      countChunk markerChunk (renderEntriesChunks mdH entries settings) =
        entries.length ∧
      renderTimelineEntries md entries settings =
        startMarkerNode :: entries.map (renderEntryLive md settings) ∧
      (∀ e, (renderEntryLive md settings e).children =
        [markerNode, renderEntryContent md settings e]) ∧
      renderEntriesChunks mdH entries settings =
        timelineOpenChunk :: startMarkerChunk ::
          ((entries.map (entryChunks mdH settings)).flatten ++ [divCloseChunk]) ∧
      (∀ e, entryChunks mdH settings e =
        itemOpenChunk :: markerChunk :: contentOpenChunk ::
          (metaChunks settings e ++ bodyChunksStatic mdH e ++ [itemCloseChunk]))) := by
  have hlen := entries_length_ne_zero hne
  constructor
  · intro hm
    have hmf : settings.showMarkers ≠ true := by rw [hm]; exact Bool.false_ne_true
    refine ⟨?_, ?_, ?_, ?_⟩
    · unfold renderTimelineEntries
      rw [if_neg hlen, if_neg hmf, nodesClsCount_append]
      rw [nodesClsCount_map _ _ _ 0 (fun e => nodeClsCount_item_start md settings e)]
      simp [nodesClsCount]
    · unfold renderTimelineEntries
      rw [if_neg hlen, if_neg hmf, nodesClsCount_append]
      rw [nodesClsCount_map _ _ _ 0 (fun e => by
        rw [nodeClsCount_item_marker md settings e, if_neg hmf])]
      simp [nodesClsCount]
    · unfold renderEntriesChunks
      rw [if_neg hlen, if_neg hmf]
      rw [countChunk_append, countChunk_append, countChunk_append]
      rw [countChunk_singleton_ne _ _ (by decide : timelineOpenChunk ≠ startMarkerChunk)]
      rw [countChunk_flatten _ _ _ 0
        (fun e => countChunk_entryChunks_start mdH settings e)]
      rw [countChunk_singleton_ne _ _ (by decide : divCloseChunk ≠ startMarkerChunk)]
      simp [countChunk]
    · unfold renderEntriesChunks
      rw [if_neg hlen, if_neg hmf]
      rw [countChunk_append, countChunk_append, countChunk_append]
      rw [countChunk_singleton_ne _ _ (by decide : timelineOpenChunk ≠ markerChunk)]
      rw [countChunk_flatten _ _ _ 0 (fun e => by
        rw [countChunk_entryChunks_marker mdH settings e, if_neg hmf])]
      rw [countChunk_singleton_ne _ _ (by decide : divCloseChunk ≠ markerChunk)]
      simp [countChunk]
  · intro hm
    refine ⟨?_, ?_, ?_, ?_, ?_, ?_, ?_, ?_⟩
    · unfold renderTimelineEntries
      rw [if_neg hlen, if_pos hm, nodesClsCount_append]
      rw [nodesClsCount_map _ _ _ 0 (fun e => nodeClsCount_item_start md settings e)]
      have h1 : nodesClsCount ("timeline-start-marker") [startMarkerNode] = 1 := by
        decide
      rw [h1]
      simp
    · unfold renderTimelineEntries
      rw [if_neg hlen, if_pos hm, nodesClsCount_append]
      rw [nodesClsCount_map _ _ _ 1 (fun e => by
        rw [nodeClsCount_item_marker md settings e, if_pos hm])]
      have h1 : nodesClsCount ("timeline-marker") [startMarkerNode] = 0 := by decide
      rw [h1, Nat.mul_one]
      exact Nat.zero_add _
    · unfold renderEntriesChunks
      rw [if_neg hlen, if_pos hm]
      rw [countChunk_append, countChunk_append, countChunk_append]
      rw [countChunk_singleton_ne _ _ (by decide : timelineOpenChunk ≠ startMarkerChunk)]
      rw [countChunk_flatten _ _ _ 0
        (fun e => countChunk_entryChunks_start mdH settings e)]
      rw [countChunk_singleton_ne _ _ (by decide : divCloseChunk ≠ startMarkerChunk)]
      have h1 : countChunk startMarkerChunk [startMarkerChunk] = 1 := by decide
      rw [h1]
      simp
    · unfold renderEntriesChunks
      rw [if_neg hlen, if_pos hm]
      rw [countChunk_append, countChunk_append, countChunk_append]
      rw [countChunk_singleton_ne _ _ (by decide : timelineOpenChunk ≠ markerChunk)]
      rw [countChunk_flatten _ _ _ 1 (fun e => by
        rw [countChunk_entryChunks_marker mdH settings e, if_pos hm])]
      rw [countChunk_singleton_ne _ _ (by decide : divCloseChunk ≠ markerChunk)]
      have h1 : countChunk markerChunk [startMarkerChunk] = 0 := by decide
      rw [h1, Nat.mul_one]
      omega
    · unfold renderTimelineEntries
      rw [if_neg hlen, if_pos hm]
      rfl
    · intro e
      unfold renderEntryLive
      rw [if_pos hm]
      rfl
    · unfold renderEntriesChunks
      rw [if_neg hlen, if_pos hm]
      rfl
    · intro e
      unfold entryChunks
      rw [if_pos hm]
      rfl

/-- Witness for claim C7 at a one-entry sequence under the default
settings and with markers disabled. -/
theorem claim_C7_witness :
    countChunk markerChunk
      (renderEntriesChunks (fun s => s)
        [{ date := none, title := some ("T"), body := ("") }]
        { showMarkers := false, defaultDateLabel := ("Date") }) = 0 ∧
    nodesClsCount ("timeline-marker")
      (renderTimelineEntries (fun _ => [])
        [{ date := none, title := some ("T"), body := ("") }]
        DEFAULT_SETTINGS) = 1 := by
  constructor
  · exact ((claim_C7 (fun _ => []) (fun s => s)
      [{ date := none, title := some ("T"), body := ("") }]
      { showMarkers := false, defaultDateLabel := ("Date") } (by decide)).1 rfl).2.2.2
  · exact (((claim_C7 (fun _ => []) (fun s => s)
      [{ date := none, title := some ("T"), body := ("") }]
      DEFAULT_SETTINGS (by decide)).2 rfl).2.1).trans (by decide)

/-- Specification-side meta block of the live renderer, built from the
resolved displayed date and the title. -/
def specMetaLive (dOpt tOpt : Option String) : List Node :=
  if dOpt.isSome || tOpt.isSome then
    [Node.mk ("timeline-meta") ("") []
      ((match dOpt with | some d => [dateNodeL d] | none => []) ++
        (match tOpt with | some t2 => [titleNodeL t2] | none => []))]
  else []

/-- Specification-side meta chunks of the static renderer, built from
the resolved displayed date and the title. -/
def specMetaStatic (dOpt tOpt : Option String) : List String :=
  if dOpt.isSome || tOpt.isSome then
    [metaOpenChunk] ++ (match dOpt with | some d => [dateSpanChunk d] | none => []) ++
      (match tOpt with | some t2 => [titleSpanChunk t2] | none => []) ++ [divCloseChunk]
  else []

/-- Claim C9: in both renderers, the displayed date is the entry's own
date if present, else the trimmed `defaultDateLabel` if that is
non-empty, else none; the meta block of both renderers is built from
that resolved date and the title (escaped in the static markup).  An
entry with its own date always shows its own value regardless of the
default. -/
theorem claim_C9 (settings : TimelinePluginSettings) (e : TimelineEntry)
    (hd : e.date ≠ some (("")))
    (ht : e.title ≠ some (("")))  :
    specDisplayedDate settings e = dateTextOf settings e ∧
    liveMetaNodes settings e = specMetaLive (specDisplayedDate settings e) e.title ∧
    metaChunks settings e = specMetaStatic (specDisplayedDate settings e) e.title ∧
    (∀ d, e.date = some d → specDisplayedDate settings e = some d) := by
  have hDwf : ∀ d, dateTextOf settings e = some d → strTruthy d = true := by
    intro d hD
    apply (strTruthy_iff d).mpr
    intro hde
    subst hde
    unfold dateTextOf at hD
    cases he : e.date with
    | some d0 =>
      rw [he] at hD
      have hD2 : some d0 = some (("")) := hD
      injection hD2 with h2
      exact hd (by rw [he, h2])
    | none =>
      rw [he] at hD
      have hD2 : (if 0 < (jsTrim settings.defaultDateLabel).length then
          some (jsTrim settings.defaultDateLabel) else none) = some (("")) := hD
      by_cases hf : 0 < (jsTrim settings.defaultDateLabel).length
      · rw [if_pos hf] at hD2
        injection hD2 with h2
        rw [h2] at hf
        exact absurd hf (by decide)
      · rw [if_neg hf] at hD2
        cases hD2
  have hTwf : ∀ t2, e.title = some t2 → strTruthy t2 = true := by
    intro t2 hT
    apply (strTruthy_iff t2).mpr
    intro hte
    exact ht (hte ▸ hT)
  have hspec : specDisplayedDate settings e = dateTextOf settings e := rfl
  refine ⟨hspec, ?_, ?_, ?_⟩
  · rw [hspec]
    unfold liveMetaNodes specMetaLive
    cases hD : dateTextOf settings e with
    | none =>
      cases hT : e.title with
      | none => rfl
      | some t2 =>
        have hst := hTwf t2 hT
        simp [truthy, hst]
    | some d =>
      have hsd := hDwf d hD
      cases hT : e.title with
      | none => simp [truthy, hsd]
      | some t2 =>
        have hst := hTwf t2 hT
        simp [truthy, hsd, hst]
  · rw [hspec]
    unfold metaChunks specMetaStatic dateChunkPart titleChunkPart
    cases hD : dateTextOf settings e with
    | none =>
      cases hT : e.title with
      | none => rfl
      | some t2 =>
        have hst := hTwf t2 hT
        simp [truthy, hst]
    | some d =>
      have hsd := hDwf d hD
      cases hT : e.title with
      | none => simp [truthy, hsd]
      | some t2 =>
        have hst := hTwf t2 hT
        simp [truthy, hsd, hst]
  · intro d hDd
    unfold specDisplayedDate
    rw [hDd]

/-- Witness for claim C9: an entry without a date and default label
"Date" shows "Date"; an entry with its own date shows its own value. -/
theorem claim_C9_witness :
    metaChunks DEFAULT_SETTINGS { date := none, title := some ("T"), body := ("") } =
      specMetaStatic (some ("Date")) (some ("T")) ∧
    specDisplayedDate DEFAULT_SETTINGS
      { date := some ("2024"), title := none, body := ("") } = some ("2024") := by
  constructor
  · have h := (claim_C9 DEFAULT_SETTINGS
      { date := none, title := some ("T"), body := ("") } (by decide) (by decide)).2.2.1
    rw [h]
    have h2 : specDisplayedDate DEFAULT_SETTINGS
        { date := none, title := some ("T"), body := ("") } = some ("Date") := by decide
    rw [h2]
  · exact (claim_C9 DEFAULT_SETTINGS
      { date := some ("2024"), title := none, body := ("") } (by decide) (by decide)).2.2.2
      ("2024") rfl

/-! ## Claim C1: structural comparison of the two renderers -/

/-- The shared semantic decomposition of one entry's meta block: `none`
when no meta block is shown, otherwise the shown date and shown title
(a field is dropped when its string is falsy), following the identical
conditional logic of both renderers. -/
def metaSem (settings : TimelinePluginSettings) (e : TimelineEntry) :
    Option (Option String × Option String) :=
  if truthy (dateTextOf settings e) || truthy e.title then
    some ((match dateTextOf settings e with
           | some d => if strTruthy d then some d else none
           | none => none),
          (match e.title with
           | some t2 => if strTruthy t2 then some t2 else none
           | none => none))
  else none

/-- Live meta block built from the shared decomposition. -/
def buildMetaLive : Option (Option String × Option String) → List Node
  | none => []
  | some (dOpt, tOpt) =>
    [Node.mk ("timeline-meta") ("") []
      ((match dOpt with | some d => [dateNodeL d] | none => []) ++
        (match tOpt with | some t2 => [titleNodeL t2] | none => []))]

/-- Static meta chunks built from the shared decomposition. -/
def buildMetaStatic : Option (Option String × Option String) → List String
  | none => []
  | some (dOpt, tOpt) =>
    [metaOpenChunk] ++ (match dOpt with | some d => [dateSpanChunk d] | none => []) ++
      (match tOpt with | some t2 => [titleSpanChunk t2] | none => []) ++ [divCloseChunk]

theorem liveMeta_factor (settings : TimelinePluginSettings) (e : TimelineEntry) :
    liveMetaNodes settings e = buildMetaLive (metaSem settings e) := by
  unfold liveMetaNodes metaSem buildMetaLive
  cases hD : dateTextOf settings e with
  | none =>
    cases hT : e.title with
    | none => rfl
    | some t2 =>
      by_cases hs : strTruthy t2 = true
      · simp [truthy, hs]
      · simp [truthy, hs]
  | some d =>
    cases hT : e.title with
    | none =>
      by_cases hs : strTruthy d = true
      · simp [truthy, hs]
      · simp [truthy, hs]
    | some t2 =>
      by_cases hs1 : strTruthy d = true <;> by_cases hs2 : strTruthy t2 = true
      all_goals simp [truthy, hs1, hs2]

theorem staticMeta_factor (settings : TimelinePluginSettings) (e : TimelineEntry) :
    metaChunks settings e = buildMetaStatic (metaSem settings e) := by
  unfold metaChunks metaSem buildMetaStatic dateChunkPart titleChunkPart
  cases hD : dateTextOf settings e with
  | none =>
    cases hT : e.title with
    | none => rfl
    | some t2 =>
      by_cases hs : strTruthy t2 = true
      · simp [truthy, hs]
      · simp [truthy, hs]
  | some d =>
    cases hT : e.title with
    | none =>
      by_cases hs : strTruthy d = true
      · simp [truthy, hs]
      · simp [truthy, hs]
    | some t2 =>
      by_cases hs1 : strTruthy d = true <;> by_cases hs2 : strTruthy t2 = true
      all_goals simp [truthy, hs1, hs2]

theorem isBodyChunk_dateSpan (d : String) : isBodyChunk (dateSpanChunk d) = false := by
  unfold isBodyChunk dateSpanChunk
  rw [String.data_append]
  exact not_prefixOf_append _ _ _ 2 (by decide) (by decide) (by decide)

theorem isBodyChunk_titleSpan (t2 : String) : isBodyChunk (titleSpanChunk t2) = false := by
  unfold isBodyChunk titleSpanChunk
  rw [String.data_append]
  exact not_prefixOf_append _ _ _ 2 (by decide) (by decide) (by decide)

theorem isBodyChunk_bodyChunk (h : String) : isBodyChunk (bodyChunk h) = true := by
  unfold isBodyChunk bodyChunk
  rw [String.data_append]
  exact List.isPrefixOf_iff_prefix.mpr (List.prefix_append _ _)

theorem countBodyChunks_singleton_false (x : String) (h : isBodyChunk x = false) :
    countBodyChunks [x] = 0 := by
  show (if isBodyChunk x then 1 else 0) + countBodyChunks [] = 0
  rw [h]
  rfl

theorem countBodyChunks_metaChunks (settings : TimelinePluginSettings)
    (e : TimelineEntry) : countBodyChunks (metaChunks settings e) = 0 := by
  unfold metaChunks
  split
  · rw [countBodyChunks_append, countBodyChunks_append, countBodyChunks_append]
    rw [countBodyChunks_singleton_false _ (by decide : isBodyChunk metaOpenChunk = false),
      countBodyChunks_singleton_false _ (by decide : isBodyChunk divCloseChunk = false)]
    have hd : countBodyChunks (dateChunkPart settings e) = 0 := by
      unfold dateChunkPart
      cases dateTextOf settings e with
      | none => rfl
      | some d =>
        show countBodyChunks (if strTruthy d = true then [dateSpanChunk d] else []) = 0
        by_cases hs : strTruthy d = true
        · rw [if_pos hs]
          exact countBodyChunks_singleton_false _ (isBodyChunk_dateSpan d)
        · rw [if_neg hs]
          rfl
    have ht : countBodyChunks (titleChunkPart e) = 0 := by
      unfold titleChunkPart
      cases e.title with
      | none => rfl
      | some t2 =>
        show countBodyChunks (if strTruthy t2 = true then [titleSpanChunk t2] else []) = 0
        by_cases hs : strTruthy t2 = true
        · rw [if_pos hs]
          exact countBodyChunks_singleton_false _ (isBodyChunk_titleSpan t2)
        · rw [if_neg hs]
          rfl
    rw [hd, ht]
  · rfl

theorem countBodyChunks_entryChunks (mdH : String → String)
    (settings : TimelinePluginSettings) (e : TimelineEntry) :
    countBodyChunks (entryChunks mdH settings e) =
      if 0 < (jsTrim e.body).length then
        (if 0 < (jsTrim (mdH (jsTrim e.body))).length then 1 else 0)
      else 0 := by
  unfold entryChunks
  rw [countBodyChunks_append, countBodyChunks_append, countBodyChunks_append,
    countBodyChunks_append, countBodyChunks_append]
  rw [countBodyChunks_singleton_false _ (by decide : isBodyChunk itemOpenChunk = false),
    countBodyChunks_singleton_false _ (by decide : isBodyChunk contentOpenChunk = false),
    countBodyChunks_singleton_false _ (by decide : isBodyChunk itemCloseChunk = false),
    countBodyChunks_metaChunks settings e]
  have hmk : countBodyChunks (if settings.showMarkers then [markerChunk] else []) = 0 := by
    by_cases hm : settings.showMarkers = true
    · rw [if_pos hm]
      exact countBodyChunks_singleton_false _ (by decide)
    · rw [if_neg hm]
      rfl
  rw [hmk]
  have hb : countBodyChunks (bodyChunksStatic mdH e) =
      if 0 < (jsTrim e.body).length then
        (if 0 < (jsTrim (mdH (jsTrim e.body))).length then 1 else 0)
      else 0 := by
    unfold bodyChunksStatic
    by_cases h1 : 0 < (jsTrim e.body).length
    · rw [if_pos h1, if_pos h1]
      by_cases h2 : 0 < (jsTrim (mdH (jsTrim e.body))).length
      · rw [if_pos h2, if_pos h2]
        show (if isBodyChunk (bodyChunk (jsTrim (mdH (jsTrim e.body)))) then 1 else 0) +
          countBodyChunks [] = 1
        rw [isBodyChunk_bodyChunk]
        rfl
      · rw [if_neg h2, if_neg h2]
        rfl
    · rw [if_neg h1, if_neg h1]
      rfl
  rw [hb]
  omega

theorem nodeClsCount_item_body (md : String → List Node)
    (settings : TimelinePluginSettings) (e : TimelineEntry) :
    nodeClsCount ("timeline-body") (renderEntryLive md settings e) = 1 := by
  unfold renderEntryLive
  rw [nodeClsCount_mk,
    if_neg (by decide : ¬ ("timeline-item") = ("timeline-body")),
    if_neg (by decide : ¬ ("timeline-item") = ("timeline-body"))]
  rw [nodesClsCount_append, nodesClsCount_cons, nodesClsCount_nil]
  unfold renderEntryContent
  rw [nodeClsCount_mk,
    if_neg (by decide : ¬ ("timeline-content") = ("timeline-body")),
    if_neg (by decide : ¬ ("timeline-content") = ("timeline-body"))]
  rw [nodesClsCount_append,
    nodesClsCount_liveMeta _ settings e (by decide) (by decide) (by decide),
    nodesClsCount_cons, nodesClsCount_nil, nodeClsCount_liveBody_self md e]
  by_cases hm : settings.showMarkers = true
  · rw [if_pos hm]
    decide
  · rw [if_neg hm]
    decide

/-- Counterexample to claim C1: for an entry whose body is empty after
trimming, the live renderer still creates a `timeline-body` element,
while the static renderer emits no body segment, so the live renderer
does not include the body block only when the trimmed body is
non-empty. -/
theorem claim_C1_counterexample :
    jsTrim ({ date := some ("2024"), title := some ("Launch"), body := ("") }
      : TimelineEntry).body = ("") ∧
    nodesClsCount ("timeline-body")
      (renderTimelineEntries (fun _ => [])
        [{ date := some ("2024"), title := some ("Launch"), body := ("") }]
        DEFAULT_SETTINGS) = 1 ∧
    countBodyChunks
      (renderEntriesChunks (fun s => s)
        [{ date := some ("2024"), title := some ("Launch"), body := ("") }]
        DEFAULT_SETTINGS) = 0 := by
  refine ⟨by decide, ?_, by decide⟩
  decide

/-- Claim C1 (amended): the two renderers agree structurally on the
empty indicator, the top-level marker and item sequence, the item
layout, and the meta section (both meta blocks are built from the same
shared decomposition, the static one escaping its text); they differ
only on the body rule: the static renderer emits a body segment exactly
when the trimmed body and its trimmed rendered markup are non-empty,
while the live renderer always creates exactly one `timeline-body`
element per item, filling it only when the trimmed body is non-empty. -/
theorem claim_C1_amended :
    (∀ (md : String → List Node) (settings : TimelinePluginSettings),
      renderTimelineEntries md [] settings =
        [Node.mk ("timeline-empty") ("No timeline entries found.") [] []]) ∧
    (∀ (mdH : String → String) (settings : TimelinePluginSettings),
      renderEntriesChunks mdH [] settings = [timelineOpenChunk, emptyChunk]) ∧
    (∀ (md : String → List Node) (settings : TimelinePluginSettings)
        (entries : List TimelineEntry), entries ≠ [] →
      renderTimelineEntries md entries settings =
        (if settings.showMarkers then [startMarkerNode] else []) ++
          entries.map (renderEntryLive md settings)) ∧
    (∀ (mdH : String → String) (settings : TimelinePluginSettings)
        (entries : List TimelineEntry), entries ≠ [] →
      renderEntriesChunks mdH entries settings =
        [timelineOpenChunk] ++
          ((if settings.showMarkers then [startMarkerChunk] else []) ++
            (entries.map (entryChunks mdH settings)).flatten ++ [divCloseChunk])) ∧
    (∀ (md : String → List Node) (settings : TimelinePluginSettings) (e : TimelineEntry),
      (renderEntryLive md settings e).children =
        (if settings.showMarkers then [markerNode] else []) ++
          [renderEntryContent md settings e]) ∧
    (∀ (settings : TimelinePluginSettings) (e : TimelineEntry),
      liveMetaNodes settings e = buildMetaLive (metaSem settings e)) ∧
    (∀ (settings : TimelinePluginSettings) (e : TimelineEntry),
      metaChunks settings e = buildMetaStatic (metaSem settings e)) ∧
    (∀ (mdH : String → String) (settings : TimelinePluginSettings) (e : TimelineEntry),
      countBodyChunks (entryChunks mdH settings e) =
        if 0 < (jsTrim e.body).length then
          (if 0 < (jsTrim (mdH (jsTrim e.body))).length then 1 else 0)
        else 0) ∧
    (∀ (md : String → List Node) (settings : TimelinePluginSettings) (e : TimelineEntry),
      nodeClsCount ("timeline-body") (renderEntryLive md settings e) = 1) ∧
    (∀ (md : String → List Node) (e : TimelineEntry),
      (liveBodyNode md e).children =
        (if 0 < (jsTrim e.body).length then md (jsTrim e.body) else [])) := by
  refine ⟨fun _ _ => rfl, fun _ _ => rfl, ?_, ?_, ?_, liveMeta_factor, staticMeta_factor,
    countBodyChunks_entryChunks, nodeClsCount_item_body, fun _ _ => rfl⟩
  · intro md settings entries hne
    unfold renderTimelineEntries
    rw [if_neg (entries_length_ne_zero hne)]
  · intro mdH settings entries hne
    unfold renderEntriesChunks
    rw [if_neg (entries_length_ne_zero hne)]
  · intro md settings e
    rfl

/-- Witness for the amended claim C1 at a concrete entry sequence. -/
theorem claim_C1_amended_witness :
    renderTimelineEntries (fun _ => [])
      [{ date := none, title := some ("T"), body := ("") }] DEFAULT_SETTINGS =
      [startMarkerNode] ++
        [{ date := none, title := some ("T"), body := ("") }].map
          (renderEntryLive (fun _ => []) DEFAULT_SETTINGS) := by
  have h := claim_C1_amended.2.2.1 (fun _ => [])
    DEFAULT_SETTINGS [{ date := none, title := some ("T"), body := ("") }] (by decide)
  rw [h]
  rfl

end KhTimelines
